import Mathlib

/-!
# Fake-Form-Detection extension: content script and service worker

A shallow embedding of `extension/content_script.js` and
`extension/service_worker.js`.

Conventions of the embedding.
* JavaScript strings are Lean strings. `toLowerCase` acts on the ASCII
  letters: every comparison the script makes after lower-casing is with an
  ASCII word without `k`, for which this agrees with JavaScript, and the `/i`
  flag of the credential pattern folds ASCII letters only. `toUpperCase` is
  the runtime's own function, a field of the page.
* Browser primitives whose code is not part of the repository (the URL
  parser, the brand heuristic `looksLikeBrand`, the remote service) are
  parameters of the model.
* DOM construction inside `showWarningModal` is taken to succeed.
* Module-level variables and per-object expando flags are fields of an
  explicit state; calls to the original (unwrapped) browser primitives are
  recorded in a log held by the state.
-/

namespace FFD

/-! ## JavaScript string helpers -/

/-- ASCII reading of `s.toLowerCase()`. -/
def toLowerCase (s : String) : String := String.mk (s.data.map Char.toLower)

/-- Upper-casing of the ASCII letters: what `s.toUpperCase()` yields on an ASCII
string. -/
def asciiToUpperCase (s : String) : String := String.mk (s.data.map Char.toUpper)

/-- Occurrence of `needle` as a contiguous block of `hay`, on character lists. -/
def includesChars (hay needle : List Char) : Bool :=
  hay.tails.any (fun t => needle.isPrefixOf t)

/-- The method `hay.includes(needle)`. -/
def includes (hay needle : String) : Bool := includesChars hay.data needle.data

/-- JavaScript truthiness of a string value. -/
def truthyStr (s : String) : Bool := s != ""

/-- The expression `a || dflt` for an attribute that may be absent (`null`). -/
def orDefault (a : Option String) (dflt : String) : String :=
  match a with
  | some s => if truthyStr s then s else dflt
  | none => dflt

/-- The conversion `Array.from(new Set(xs))`: first occurrences, in order. -/
def setToArray (xs : List String) : List String :=
  xs.foldl (fun acc x => if x ∈ acc then acc else acc ++ [x]) []

/-- The accumulation step of `setToArray`, started from any prefix. -/
def setInsertAll (acc xs : List String) : List String :=
  xs.foldl (fun acc x => if x ∈ acc then acc else acc ++ [x]) acc

/-! ## Form Inspector and Risk Evaluator (`content_script.js`, lines 100-124) -/

/-- One entry of `info.inputs`. -/
structure InputInfo where
  tag : String
  type : String
  name : String
  id : String
  hidden : Bool
  deriving DecidableEq, Repr

/-- The object returned by `analyzeForm`. -/
structure FormInfo where
  action : String
  method : String
  inputs : List InputInfo
  hasPassword : Bool
  pageDomain : String
  actionDomain : String
  isHTTPS : Bool
  brand : Option String
  pageTitle : String
  deriving DecidableEq, Repr

/-- A reputation verdict as seen by the content script: only `status` is read. -/
structure SbVerdict where
  status : String
  error : Option String := none
  deriving DecidableEq, Repr

/-- The default value of the parameter `sb` of `evaluateFormRisk`. -/
def sbUnknown : SbVerdict := { status := "unknown" }

def reasonUnsafe : String := "Safe Browsing: URL flagged as unsafe."

def reasonDomain (actionDomain : String) : String :=
  "Form posts to a different domain: " ++ actionDomain

def reasonHttps : String := "Page is not HTTPS."

def reasonHidden (hiddenCount : Nat) : String :=
  "Form contains " ++ toString hiddenCount ++ " hidden inputs (possible exfiltration)."

def reasonBrand (brand pageDomain : String) : String :=
  "Page appears to impersonate " ++ brand ++ " but domain is " ++ pageDomain ++ "."

/-- The value of `info.inputs.filter(i => i.hidden).length`. -/
def hiddenCount (info : FormInfo) : Nat := (info.inputs.filter (fun i => i.hidden)).length

/-- The test `info.brand && !info.pageDomain.includes(info.brand)` with its reason. -/
def brandReasons (info : FormInfo) : List String :=
  match info.brand with
  | some b =>
    if truthyStr b && !(includes info.pageDomain b) then [reasonBrand b info.pageDomain] else []
  | none => []

/-- The array `reasons` of `evaluateFormRisk` just before the final deduplication. -/
def pushedReasons (info : FormInfo) (sb : SbVerdict) : List String :=
  (if sb.status = "unsafe" then [reasonUnsafe] else [])
  ++ (if truthyStr info.actionDomain && info.actionDomain != info.pageDomain
        then [reasonDomain info.actionDomain] else [])
  ++ (if !info.isHTTPS then [reasonHttps] else [])
  ++ (if hiddenCount info ≥ 2 then [reasonHidden (hiddenCount info)] else [])
  ++ brandReasons info

/-- The function `evaluateFormRisk(info, sb)`. -/
def evaluateFormRisk (info : FormInfo) (sb : SbVerdict := sbUnknown) : List String :=
  if !info.hasPassword then []
  else setToArray (pushedReasons info sb)


/-- An element matched by `form.querySelectorAll("input, textarea, select, button")`. -/
structure FormControl where
  tagName : String
  type : String
  name : String
  id : String
  offsetParentIsNull : Bool
  deriving DecidableEq, Repr

/-- The part of a form element that `analyzeForm` reads. -/
structure FormDom where
  actionAttr : Option String
  methodAttr : Option String
  controls : List FormControl
  deriving DecidableEq, Repr

/-- The page: `location`, `document.title`, the two collaborators whose code is
not in the repository, and the runtime's `String.prototype.toUpperCase`. `urlHostname a` is `new URL(a, location.href).hostname`, or
`none` when the constructor throws; `looksLikeBrand` is `none` when no such function
is defined, and otherwise holds what `looksLikeBrand(document)` returns. -/
structure Page where
  href : String
  hostname : String
  protocol : String
  title : String
  urlHostname : String → Option String
  looksLikeBrand : Option (Option String)
  runtimeAvailable : Bool
  toUpperCase : String → String

/-- The expression `h.replace(/^www\./i, "")` on characters. -/
def stripWww (cs : List Char) : List Char :=
  match cs with
  | w1 :: w2 :: w3 :: dot :: rest =>
    if w1.toLower = 'w' && w2.toLower = 'w' && w3.toLower = 'w' && dot = '.' then rest else cs
  | _ => cs

/-- The expression `h.replace(/^www\./i, "").toLowerCase()`. -/
def normalizeDomain (h : String) : String := toLowerCase (String.mk (stripWww h.data))

/-- The function `analyzeForm(form)`. -/
def analyzeForm (page : Page) (form : FormDom) : FormInfo :=
  let action := orDefault form.actionAttr page.href
  let method := page.toUpperCase (orDefault form.methodAttr "GET")
  let inputs := form.controls.map (fun el =>
    ({ tag := toLowerCase el.tagName, type := el.type, name := el.name, id := el.id,
       hidden := el.type = "hidden" || el.offsetParentIsNull } : InputInfo))
  let hasPassword := inputs.any (fun i => toLowerCase i.type = "password")
  let pageDomain := normalizeDomain page.hostname
  let actionDomain := match page.urlHostname action with
    | some h => normalizeDomain h
    | none => ""
  let isHTTPS := page.protocol = "https:"
  let brand := match page.looksLikeBrand with
    | some r => r
    | none => none
  { action := action, method := method, inputs := inputs, hasPassword := hasPassword,
    pageDomain := pageDomain, actionDomain := actionDomain, isHTTPS := isHTTPS,
    brand := brand, pageTitle := page.title }

/-! ## Content-script state (`content_script.js`) -/

/-- A node on the way from `ev.target` up to, and not including, `document`.
`tagName` is `none` for a node without one; `form` is the value of
`node.form || node.closest("form")`, an index into `document.forms`. -/
structure DomNode where
  tagName : Option String
  type : String
  role : Option String
  form : Option Nat
  deriving DecidableEq, Repr

/-- An element, given by itself followed by its ancestors. -/
abbrev ElementPath := List DomNode

/-- A click event while it is delivered to the capture-phase listeners of `document`. -/
structure ClickEvent where
  button : Nat
  defaultPrevented : Bool
  path : ElementPath
  propagationStopped : Bool := false
  immediateStopped : Bool := false
  cancelable : Bool := true
  deriving DecidableEq, Repr

/-- The calls `preventDefault(); stopPropagation(); stopImmediatePropagation()`;
`preventDefault` has an effect on a cancelable event only. -/
def ClickEvent.block (ev : ClickEvent) : ClickEvent :=
  { ev with defaultPrevented := ev.cancelable || ev.defaultPrevented,
            propagationStopped := true, immediateStopped := true }

/-- A request body handed to `fetch` or `send`. `urlSearchParams s` carries
`body.toString()`; `formData es` carries `body.entries()` with the values as
strings; `object j` carries `JSON.stringify(body)`, `none` when that throws or
yields `undefined`; `other` is a number, boolean or the like. -/
inductive Body where
  | undefined
  | null
  | str (s : String)
  | urlSearchParams (s : String)
  | formData (entries : List (String × String))
  | object (json : Option String)
  | other
  deriving DecidableEq, Repr

/-- The object `init` of a `fetch` call. -/
structure FetchInit where
  method : Option String
  body : Body
  deriving DecidableEq, Repr

/-- The second argument of a `fetch` call as written by the caller. -/
inductive InitArg where
  | undefined
  | null
  | obj (i : FetchInit)
  deriving DecidableEq, Repr

/-- The first argument of a `fetch` call: a string, or an object with
`method` and `url` properties, or `null`. For an object, `body` is the body
the request was built with; the replacement of `fetch` never reads it. -/
inductive FetchInput where
  | str (url : String)
  | obj (method : Option String) (url : Option String) (body : Body)
  | null
  deriving DecidableEq, Repr

/-- The fields the wrappers keep on an `XMLHttpRequest` object. -/
structure Xhr where
  ffdMethod : Option String := none
  ffdUrl : Option String := none
  ffdHeaders : Option (List (String × String)) := none
  deriving DecidableEq, Repr

/-- An entry of `__ffd_pendingAjax`. -/
inductive PendingAjax where
  | fetch (url : Option String) (init : InitArg)
  | xhr (method : Option String) (url : Option String) (headers : List (String × String))
      (body : Body)
  deriving DecidableEq, Repr

/-- The third argument of `showWarningModal`: a form snapshot or the details of a call. -/
inductive ModalInfo where
  | form (info : FormInfo)
  | ajax (type : String) (url : Option String) (body : String)
  deriving DecidableEq, Repr

/-- The first argument of `showWarningModal`: a form of the document or `document.body`. -/
inductive ModalTarget where
  | form (index : Nat)
  | body
  deriving DecidableEq, Repr

/-- The overlay `#__ffd_modal` together with what its button handlers close over. -/
structure Modal where
  target : ModalTarget
  reasons : List String
  info : ModalInfo
  deriving DecidableEq, Repr

/-- Calls that leave the content script: the original browser primitives, the
synthetic click and the report message. -/
inductive Effect where
  | origFetch (input : FetchInput) (init : InitArg)
  | origOpen (method : Option String) (url : Option String)
  | origSetHeader (k v : String)
  | origSend (xhr : Xhr) (body : Body)
  | origSubmit (form : Nat)
  | dispatchClick (target : ElementPath) (defaultPrevented : Bool)
  | reportPhish (pageUrl : String) (reasons : List String) (info : ModalInfo)
  | typeError
  deriving DecidableEq, Repr

/-- A form of `document.forms` with the three expando flags the script puts on it. -/
structure Form where
  dom : FormDom
  hooked : Bool := false
  submitPatched : Bool := false
  disableInterception : Bool := false
  deriving DecidableEq, Repr

/-- The state of the content script in one page. -/
structure State where
  page : Page
  forms : List Form
  bodyDisableInterception : Bool := false
  modalOpen : Bool := false
  overlay : Option Modal := none
  pendingAjax : List PendingAjax := []
  skipNextClick : Bool := false
  lastClickedButton : Option ElementPath := none
  log : List Effect := []

def State.emit (st : State) (e : Effect) : State := { st with log := st.log ++ [e] }

/-- The assignment `form.__ffd_disableInterception = true` on a form of the document. -/
def State.setFormBypass (st : State) (i : Nat) : State :=
  { st with forms := st.forms.modify (fun f => { f with disableInterception := true }) i }

/-- The bypass flag of form `i`; `false` when there is no such form. -/
def State.bypass (st : State) (i : Nat) : Bool :=
  match st.forms[i]? with
  | some f => f.disableInterception
  | none => false

/-! ### The modal (`showWarningModal`, lines 302-406) -/

/-- The function `showWarningModal(form, reasons, formInfo)`. -/
def showWarningModal (st : State) (target : ModalTarget) (reasons : List String)
    (info : ModalInfo) : State :=
  if st.modalOpen then st
  else { st with modalOpen := true, overlay := some ⟨target, reasons, info⟩ }

/-! ### Click capture (lines 13-69 and 175-230) -/

/-- The test both listeners apply to a node of the ancestor walk. -/
def isButtonLike (node : DomNode) : Bool :=
  match node.tagName with
  | none => false
  | some t =>
    let tag := toLowerCase t
    tag = "button"
      || (tag = "input" && (node.type = "submit" || node.type = "button"))
      || node.role = some "button"

/-- The ancestor walk: the first button-like node from the target upwards. -/
def findButton (path : ElementPath) : Option DomNode := path.find? isButtonLike

/-- What both listeners do once a form has been found and is to be examined. -/
def interceptClick (st : State) (ev : ClickEvent) (i : Nat) (f : Form) : State × ClickEvent :=
  let info := analyzeForm st.page f.dom
  if !info.hasPassword then (st, ev)
  else
    let heuristics := evaluateFormRisk info sbUnknown
    if heuristics.length > 0 then
      (showWarningModal st (.form i) heuristics (.form info), ev.block)
    else (st, ev)

/-- The first capture-phase click listener (lines 13-69). -/
def clickListener1 (st : State) (ev : ClickEvent) : State × ClickEvent :=
  if st.skipNextClick then ({ st with skipNextClick := false }, ev)
  else if ev.button ≠ 0 then (st, ev)
  else if ev.defaultPrevented then (st, ev)
  else if st.modalOpen then (st, ev)
  else
    match findButton ev.path with
    | none => (st, ev)
    | some buttonEl =>
      match buttonEl.form with
      | none => (st, ev)
      | some i =>
        match st.forms[i]? with
        | none => (st, ev)
        | some f =>
          if f.disableInterception then (st, ev)
          else interceptClick st ev i f

/-- The second capture-phase click listener (lines 175-230). -/
def clickListener2 (st : State) (ev : ClickEvent) : State × ClickEvent :=
  if ev.defaultPrevented then (st, ev)
  else if ev.button ≠ 0 then (st, ev)
  else if st.modalOpen then (st, ev)
  else
    match findButton ev.path with
    | none => (st, ev)
    | some buttonEl =>
      match buttonEl.form with
      | none => (st, ev)
      | some i =>
        match st.forms[i]? with
        | none => (st, ev)
        | some f => interceptClick st ev i f

/-- Delivery of a click to the two listeners of `document`, in registration order;
the second is skipped once immediate propagation has been stopped. -/
def dispatchClickEvent (st : State) (ev : ClickEvent) : State × ClickEvent :=
  let r := clickListener1 st ev
  if r.2.immediateStopped then r else clickListener2 r.1 r.2

/-! ### Form hooks (`attachFormHandler`, lines 127-171) -/

/-- The function `attachFormHandler(form)` for form `i` of the document. -/
def attachFormHandler (st : State) (i : Nat) : State :=
  match st.forms[i]? with
  | none => st
  | some f =>
    if f.hooked then st
    else { st with forms := st.forms.set i { f with hooked := true, submitPatched := true } }

/-- The function `initFormScanner()`. -/
def initFormScanner (st : State) : State :=
  (List.range st.forms.length).foldl attachFormHandler st

/-- The replacement of `form.submit` installed by `attachFormHandler`. -/
def wrappedSubmit (st : State) (i : Nat) : State :=
  match st.forms[i]? with
  | none => st
  | some f =>
    if f.disableInterception then st.emit (.origSubmit i)
    else
      let info := analyzeForm st.page f.dom
      let reasons := evaluateFormRisk info sbUnknown
      if reasons.length > 0 then showWarningModal st (.form i) reasons (.form info)
      else st.emit (.origSubmit i)

/-- A call `form.submit()` on form `i`: the replacement when it is installed,
the native method otherwise. -/
def callFormSubmit (st : State) (i : Nat) : State :=
  match st.forms[i]? with
  | none => st
  | some f => if f.submitPatched then wrappedSubmit st i else st.emit (.origSubmit i)

/-- The capture-phase `submit` listener of form `i`, from the point where the awaited
verdict `sb` has arrived. The flag returned says whether `preventDefault` was called. -/
def submitListener (st : State) (i : Nat) (sb : SbVerdict) : State × Bool :=
  match st.forms[i]? with
  | none => (st, false)
  | some f =>
    let info := analyzeForm st.page f.dom
    let reasons := evaluateFormRisk info sb
    if reasons.length > 0 then (showWarningModal st (.form i) reasons (.form info), true)
    else (st, false)

/-- What the messaging channel delivers to the callback of `safeBrowsingCheck`. -/
inductive ChannelOutcome where
  | sendThrows
  | lastError (message : String)
  | noResponse
  | response (sb : SbVerdict)
  deriving DecidableEq, Repr

/-- The function `safeBrowsingCheck(url)` of the content script (lines 76-96). -/
def safeBrowsingCheck (page : Page) (chan : ChannelOutcome) : SbVerdict :=
  if !page.runtimeAvailable then { status := "unknown", error := some "runtime_unavailable" }
  else
    match chan with
    | .sendThrows => { status := "unknown", error := some "sendMessage_failed" }
    | .lastError m => { status := "unknown", error := some m }
    | .noResponse => { status := "unknown" }
    | .response sb => sb

/-! ### Network-call overrides (lines 232-299) -/

/-- The alternatives of the pattern `/(pass|pwd|password|user|email|u_name|uname)/i`. -/
def credentialWords : List String :=
  ["pass", "pwd", "password", "user", "email", "u_name", "uname"]

/-- The test `patt.test(s)`. -/
def pattTest (s : String) : Bool :=
  credentialWords.any (fun w => includes (toLowerCase s) w)

/-- The string built from `body.entries()` of a `FormData`. -/
def formDataString (entries : List (String × String)) : String :=
  entries.foldl (fun s kv => s ++ (kv.1 ++ "=" ++ kv.2 ++ "&")) ""

/-- The text in which `extractCredentialsFromBody` searches, by the shape of the body. -/
def bodyText : Body → Option String
  | .str s => some s
  | .urlSearchParams s => some s
  | .formData es => some (formDataString es)
  | .object j => j
  | .undefined => none
  | .null => none
  | .other => none

/-- The function `extractCredentialsFromBody(body)`; `none` is `null`. -/
def extractCredentialsFromBody (body : Body) : Option String :=
  match bodyText body with
  | some s => if pattTest s then some s else none
  | none => none

def ajaxReason : String := "Possible credential exfiltration detected via JavaScript (AJAX)."

/-- The value of `document.forms[0] || document.body`. -/
def firstFormOrBody (st : State) : ModalTarget :=
  match st.forms with
  | [] => .body
  | _ :: _ => .form 0

/-- The function `triggerAjaxWarning(details)`. -/
def triggerAjaxWarning (st : State) (details : ModalInfo) : State :=
  showWarningModal st (firstFormOrBody st) [ajaxReason] details

/-- How a wrapped call ends: suspended for good, or handed to the original primitive. -/
inductive CallResult where
  | suspended
  | forwarded
  deriving DecidableEq, Repr

/-- The parameter `init` after the default `= {}` has been applied; `none` is `null`. -/
def InitArg.fields : InitArg → Option FetchInit
  | .undefined => some { method := none, body := .undefined }
  | .null => none
  | .obj i => some i

/-- The value of `typeof input === "string" ? "GET" : (input && input.method) || "GET"`. -/
def inputMethod : FetchInput → String
  | .str _ => "GET"
  | .obj m _ _ => orDefault m "GET"
  | .null => "GET"

/-- The constant `method` computed by the `fetch` replacement. -/
def fetchMethod (upper : String → String) (input : FetchInput) (init : InitArg) : String :=
  match init.fields with
  | some i =>
    match i.method with
    | some m => if truthyStr m then upper m else inputMethod input
    | none => inputMethod input
  | none => inputMethod input

/-- The value of `typeof input === "string" ? input : (input && input.url)`. -/
def inputUrl : FetchInput → Option String
  | .str u => some u
  | .obj _ u _ => u
  | .null => none

/-- The replacement of `window.fetch`. -/
def wrappedFetch (st : State) (input : FetchInput) (init : InitArg) : State × CallResult :=
  let pass : State × CallResult := (st.emit (.origFetch input init), .forwarded)
  if fetchMethod st.page.toUpperCase input init = "POST" then
    match init.fields with
    | none => pass
    | some i =>
      match extractCredentialsFromBody i.body with
      | some creds =>
        if truthyStr creds then
          let st1 := { st with pendingAjax := st.pendingAjax ++ [.fetch (inputUrl input) init] }
          (triggerAjaxWarning st1 (.ajax "fetch" (inputUrl input) creds), .suspended)
        else pass
      | none => pass
  else pass

/-- The replacement of `XMLHttpRequest.prototype.open`. -/
def wrappedOpen (st : State) (_xhr : Xhr) (method url : Option String) : State × Xhr :=
  (st.emit (.origOpen method url), { ffdMethod := method, ffdUrl := url, ffdHeaders := some [] })

/-- The replacement of `XMLHttpRequest.prototype.setRequestHeader`. -/
def wrappedSetRequestHeader (st : State) (xhr : Xhr) (k v : String) : State × Xhr :=
  (st.emit (.origSetHeader k v),
   { xhr with ffdHeaders := some ((xhr.ffdHeaders.getD []) ++ [(k, v)]) })

/-- The constant `method` computed by the `send` replacement. -/
def xhrMethod (upper : String → String) (xhr : Xhr) : String :=
  upper (orDefault xhr.ffdMethod "GET")

/-- The replacement of `XMLHttpRequest.prototype.send`. -/
def wrappedSend (st : State) (xhr : Xhr) (body : Body) : State × CallResult :=
  let pass : State × CallResult := (st.emit (.origSend xhr body), .forwarded)
  if xhrMethod st.page.toUpperCase xhr = "POST" then
    match extractCredentialsFromBody body with
    | some creds =>
      if truthyStr creds then
        let st1 := { st with pendingAjax := st.pendingAjax ++
          [.xhr xhr.ffdMethod xhr.ffdUrl (xhr.ffdHeaders.getD []) body] }
        (triggerAjaxWarning st1 (.ajax "xhr" xhr.ffdUrl creds), .suspended)
      else pass
    | none => pass
  else pass

/-! ### The three buttons of the modal (lines 335-392) -/

/-- The handler `reportBtn.onclick`. -/
def reportClick (st : State) : State :=
  match st.overlay with
  | none => st
  | some m =>
    if st.page.runtimeAvailable then st.emit (.reportPhish st.page.href m.reasons m.info)
    else st

/-- The handler `cancelBtn.onclick`. -/
def cancelClick (st : State) : State :=
  match st.overlay with
  | none => st
  | some _ => { st with overlay := none, modalOpen := false }

/-- The assignment `form.__ffd_disableInterception = true` on the modal's first argument. -/
def setBypass (st : State) : ModalTarget → State
  | .form i => st.setFormBypass i
  | .body => { st with bodyDisableInterception := true }

/-- The call `form.submit()` on the modal's first argument; `document.body` has no
such method, so the call throws there. -/
def callSubmitOn (st : State) : ModalTarget → State
  | .form i => callFormSubmit st i
  | .body => st.emit .typeError

/-- The handler `proceedBtn.onclick`. -/
def proceedClick (st : State) : State :=
  match st.overlay with
  | none => st
  | some m =>
    let st1 := { st with overlay := none, modalOpen := false }
    let st2 := setBypass st1 m.target
    match st2.lastClickedButton with
    | some btn =>
      let r := dispatchClickEvent st2
        { button := 0, defaultPrevented := false, path := btn, cancelable := true }
      r.1.emit (.dispatchClick btn r.2.defaultPrevented)
    | none => callSubmitOn st2 m.target

/-- The user's choice on the open modal. -/
inductive Decision where
  | report
  | cancel
  | proceed
  deriving DecidableEq, Repr

/-- A press of one of the three buttons. -/
def applyDecision (st : State) : Decision → State
  | .report => reportClick st
  | .cancel => cancelClick st
  | .proceed => proceedClick st

/-- Whether a logged call is a use of the original `fetch` or the original `send`. -/
def isNetworkCall : Effect → Bool
  | .origFetch _ _ => true
  | .origSend _ _ => true
  | _ => false

/-- The uses of the original `fetch` and `send` recorded in a log, in order. -/
def networkCalls (log : List Effect) : List Effect := log.filter isNetworkCall

/-! ## Service worker (`service_worker.js`) -/

/-- A parsed JSON value. An object is given by its own properties, each key once. -/
inductive Json where
  | null
  | bool (b : Bool)
  | num (n : Int)
  | str (s : String)
  | arr (xs : List Json)
  | obj (kvs : List (String × Json))

/-- JavaScript truthiness of a parsed JSON value. -/
def Json.truthy : Json → Bool
  | .null => false
  | .bool b => b
  | .num n => n != 0
  | .str s => s != ""
  | .arr _ => true
  | .obj _ => true

/-- A property read `j[k]` on a truthy JSON value; `none` is `undefined`. -/
def Json.prop (j : Json) (k : String) : Option Json :=
  match j with
  | .obj kvs => kvs.lookup k
  | .arr xs => if k = "length" then some (.num xs.length) else none
  | .str s => if k = "length" then some (.num s.length) else none
  | _ => none

/-- The constant `CACHE_TTL_MS`. -/
def CACHE_TTL_MS : Int := 24 * 60 * 60 * 1000

/-- The object returned by `queryGoogleSafeBrowsing`; `matchList` is its property
`matches`. -/
structure Verdict where
  status : String
  matchList : Option Json := none
  error : Option String := none

/-- A stored entry `{ ...data, ts }`. -/
structure CacheEntry where
  data : Verdict
  ts : Int

/-- The object handed to `sendResponse`: a fresh verdict, or `{ ...cached, fromCache: true }`. -/
structure Response where
  data : Verdict
  ts : Option Int := none
  fromCache : Bool := false

/-- A stored report `{ ts, payload }`. -/
structure ReportRecord where
  ts : Int
  payload : String

/-- The extension storage `chrome.storage.local` and the requests sent to the remote
service; `fetches` lists the URL of every `fetch` made by `queryGoogleSafeBrowsing`. -/
structure SWState where
  cache : String → Option CacheEntry
  reports : List ReportRecord := []
  fetches : List String := []

/-- What the `fetch` to the remote service yields: a rejection, or a response with
its HTTP status and the outcome of `resp.json()` (`none` when that promise rejects). -/
inductive FetchOutcome where
  | networkError (message : String)
  | response (status : Nat) (json : Option Json)

/-- The property `resp.ok`: a status in the range 200-299. -/
def httpOk (status : Nat) : Bool := 200 ≤ status && status ≤ 299

/-- The test `json && json.matches && json.matches.length`, with `json.matches`. -/
def matchesOf (json : Option Json) : Option Json :=
  match json with
  | none => none
  | some j =>
    if j.truthy then
      match j.prop "matches" with
      | none => none
      | some m =>
        if m.truthy then
          match m.prop "length" with
          | none => none
          | some len => if len.truthy then some m else none
        else none
    else none

/-- The function `queryGoogleSafeBrowsing(url)`. `validUrl` stands for the success
of `new URL(url)`. The state is returned with the request logged when one is sent. -/
def queryGoogleSafeBrowsing (validUrl : String → Bool) (st : SWState) (url : String)
    (outcome : FetchOutcome) : Verdict × SWState :=
  if !validUrl url then ({ status := "unknown", error := some "invalid_url" }, st)
  else
    let st1 := { st with fetches := st.fetches ++ [url] }
    match outcome with
    | .networkError msg => ({ status := "unknown", error := some msg }, st1)
    | .response status json =>
      if !httpOk status then
        ({ status := "unknown", error := some ("http_" ++ toString status) }, st1)
      else
        match matchesOf json with
        | some m => ({ status := "unsafe", matchList := some m }, st1)
        | none => ({ status := "safe", matchList := some (.arr []) }, st1)

/-- The function `readCache(key)` at time `now`. -/
def readCache (st : SWState) (key : String) (now : Int) : Option CacheEntry × SWState :=
  match st.cache key with
  | none => (none, st)
  | some entry =>
    if now - entry.ts < CACHE_TTL_MS then (some entry, st)
    else (none, { st with cache := fun k => if k = key then none else st.cache k })

/-- The function `writeCache(key, data)` at time `now`. -/
def writeCache (st : SWState) (key : String) (data : Verdict) (now : Int) : SWState :=
  { st with cache := fun k => if k = key then some { data := data, ts := now } else st.cache k }

/-- The storage key of a URL. -/
def cacheKey (url : String) : String := "sb:" ++ url

/-- The `safeBrowseCheck` message handler: `tRead` is the clock when the cache is
read, `tWrite` the clock when a fresh verdict is written. -/
def safeBrowseCheck (validUrl : String → Bool) (st : SWState) (url : String)
    (tRead tWrite : Int) (outcome : FetchOutcome) : Response × SWState :=
  match readCache st (cacheKey url) tRead with
  | (some cached, st1) => ({ data := cached.data, ts := some cached.ts, fromCache := true }, st1)
  | (none, st1) =>
    match queryGoogleSafeBrowsing validUrl st1 url outcome with
    | (result, st2) =>
      let st3 := if result.status != "unknown" then writeCache st2 (cacheKey url) result tWrite
        else st2
      ({ data := result }, st3)

/-- The `reportPhish` message handler. -/
def reportPhish (st : SWState) (now : Int) (payload : String) : SWState :=
  { st with reports := st.reports ++ [{ ts := now, payload := payload }] }

/-- One lookup of a sequence: the two clock readings and what the remote service does. -/
structure Lookup where
  tRead : Int
  tWrite : Int
  outcome : FetchOutcome

/-- Consecutive `safeBrowseCheck` lookups of one URL; the responses come in order. -/
def runLookups (validUrl : String → Bool) (st : SWState) (url : String) :
    List Lookup → List Response × SWState
  | [] => ([], st)
  | l :: ls =>
    let r := safeBrowseCheck validUrl st url l.tRead l.tWrite l.outcome
    let rest := runLookups validUrl r.2 url ls
    (r.1 :: rest.1, rest.2)

/-! ## Concrete pages, forms and responses -/

/-- An empty extension storage with no request sent yet. -/
def emptyWorker : SWState := { cache := fun _ => none }

/-- A success response of the remote service listing one match. -/
def oneMatchOutcome : FetchOutcome :=
  .response 200 (some (.obj [("matches", .arr [.obj [("threatType", .str "SOCIAL_ENGINEERING")]])]))

/-- A URL parser that accepts every string but `"not a url"`. -/
def sampleValidUrl (u : String) : Bool := u != "not a url"

/-- The page of the scenario, `https://bank-example.com/login`; the URL parser is
given on the one action URL that occurs. -/
def bankPage : Page :=
  { href := "https://bank-example.com/login", hostname := "bank-example.com",
    protocol := "https:", title := "Sign in",
    urlHostname := fun a => if a = "https://evil.test/collect" then some "evil.test" else none,
    looksLikeBrand := none, runtimeAvailable := true, toUpperCase := asciiToUpperCase }

/-- A login form posting to `https://evil.test/collect`. -/
def loginFormDom : FormDom :=
  { actionAttr := some "https://evil.test/collect", methodAttr := some "post",
    controls := [⟨"INPUT", "text", "user", "", false⟩,
                 ⟨"INPUT", "password", "pass", "", false⟩,
                 ⟨"BUTTON", "submit", "", "go", false⟩] }

/-- The submit button of the login form, with its ancestors. -/
def submitButton : ElementPath :=
  [{ tagName := some "BUTTON", type := "submit", role := none, form := some 0 },
   { tagName := some "FORM", type := "", role := none, form := some 0 },
   { tagName := some "BODY", type := "", role := none, form := none }]

/-- The page with its one form, after `initFormScanner` has run. -/
def bankState : State := initFormScanner { page := bankPage, forms := [{ dom := loginFormDom }] }

/-- A primary-button click on the submit button. -/
def primaryClick : ClickEvent := { button := 0, defaultPrevented := false, path := submitButton }

/-- The state after a click on the submit button has opened the modal. -/
def clickModalState : State := (dispatchClickEvent bankState primaryClick).1

/-- The state after "Proceed anyway" on that modal. -/
def bypassedState : State := proceedClick clickModalState

/-- The modal of `clickModalState` with the clicked control known. -/
def clickKnownState : State := { clickModalState with lastClickedButton := some submitButton }

/-- The JSON text of the scenario body. -/
def loginJson : String := "\x7b\"username\":\"a\",\"password\":\"b\"\x7d"

/-- The state after a script on the page has called
`fetch("/api/login", { method: "POST", body: ... })` with the scenario body. -/
def ajaxModalState : State :=
  (wrappedFetch bankState (.str "/api/login")
    (.obj { method := some "POST", body := .str loginJson })).1

/-! # Theorems -/

/-! ## Facts about the helpers -/

theorem includesChars_iff (hay needle : List Char) :
    includesChars hay needle = true ↔ needle <:+: hay := by
  unfold includesChars
  rw [List.any_eq_true]
  constructor
  · rintro ⟨t, ht, hp⟩
    rw [List.mem_tails] at ht
    exact (List.isPrefixOf_iff_prefix.mp hp).isInfix.trans ht.isInfix
  · intro h
    obtain ⟨t, hp, hs⟩ := List.infix_iff_prefix_suffix.mp h
    exact ⟨t, (List.mem_tails _ _).mpr hs, List.isPrefixOf_iff_prefix.mpr hp⟩

theorem includes_iff (hay needle : String) :
    includes hay needle = true ↔ needle.data <:+: hay.data :=
  includesChars_iff _ _

theorem truthyStr_iff (s : String) : truthyStr s = true ↔ s ≠ "" := by
  simp [truthyStr]

theorem setToArray_eq (xs : List String) : setToArray xs = setInsertAll [] xs := rfl

theorem mem_setInsertAll (x : String) (xs acc : List String) :
    x ∈ setInsertAll acc xs ↔ x ∈ acc ∨ x ∈ xs := by
  induction xs generalizing acc with
  | nil => simp [setInsertAll]
  | cons y ys ih =>
    have step : setInsertAll acc (y :: ys)
        = setInsertAll (if y ∈ acc then acc else acc ++ [y]) ys := rfl
    rw [step, ih]
    by_cases hy : y ∈ acc
    · simp only [hy, if_true, List.mem_cons]
      constructor
      · rintro (h | h)
        · exact Or.inl h
        · exact Or.inr (Or.inr h)
      · rintro (h | h | h)
        · exact Or.inl h
        · exact Or.inl (h ▸ hy)
        · exact Or.inr h
    · simp only [hy, if_false, List.mem_append, List.mem_singleton, List.mem_cons]
      tauto

theorem nodup_setInsertAll (xs acc : List String) (h : acc.Nodup) :
    (setInsertAll acc xs).Nodup := by
  induction xs generalizing acc with
  | nil => simpa [setInsertAll] using h
  | cons y ys ih =>
    have step : setInsertAll acc (y :: ys)
        = setInsertAll (if y ∈ acc then acc else acc ++ [y]) ys := rfl
    rw [step]
    apply ih
    by_cases hy : y ∈ acc
    · simpa [hy] using h
    · simp only [hy, if_false]
      rw [List.nodup_append]
      refine ⟨h, List.nodup_singleton y, ?_⟩
      intro a ha hb
      rw [List.mem_singleton] at hb
      exact hy (hb ▸ ha)

theorem setInsertAll_of_nodup (xs acc : List String) (h : (acc ++ xs).Nodup) :
    setInsertAll acc xs = acc ++ xs := by
  induction xs generalizing acc with
  | nil => simp [setInsertAll]
  | cons y ys ih =>
    have step : setInsertAll acc (y :: ys)
        = setInsertAll (if y ∈ acc then acc else acc ++ [y]) ys := rfl
    have hy : y ∉ acc := by
      intro hmem
      rw [List.nodup_append] at h
      exact h.2.2 hmem (List.mem_cons_self y ys)
    rw [step]
    simp only [hy, if_false]
    rw [ih (acc ++ [y]) (by simpa using h)]
    simp

theorem mem_setToArray (x : String) (xs : List String) : x ∈ setToArray xs ↔ x ∈ xs := by
  rw [setToArray_eq, mem_setInsertAll]
  simp

theorem nodup_setToArray (xs : List String) : (setToArray xs).Nodup := by
  rw [setToArray_eq]
  exact nodup_setInsertAll xs [] List.nodup_nil

theorem setToArray_of_nodup (xs : List String) (h : xs.Nodup) : setToArray xs = xs := by
  rw [setToArray_eq, setInsertAll_of_nodup xs [] (by simpa using h)]
  simp

/-! The five reason sentences are pairwise different, whatever is spliced in. -/

theorem reasonUnsafe_ne_domain (d : String) : reasonUnsafe ≠ reasonDomain d := by
  intro h
  have := congrArg String.data h
  simp [reasonUnsafe, reasonDomain] at this

theorem reasonUnsafe_ne_https : reasonUnsafe ≠ reasonHttps := by decide

theorem reasonUnsafe_ne_hidden (n : Nat) : reasonUnsafe ≠ reasonHidden n := by
  intro h
  have := congrArg String.data h
  simp [reasonUnsafe, reasonHidden] at this

theorem reasonUnsafe_ne_brand (b p : String) : reasonUnsafe ≠ reasonBrand b p := by
  intro h
  have := congrArg String.data h
  simp [reasonUnsafe, reasonBrand] at this

theorem reasonDomain_ne_https (d : String) : reasonDomain d ≠ reasonHttps := by
  intro h
  have := congrArg String.data h
  simp [reasonHttps, reasonDomain] at this

theorem reasonDomain_ne_hidden (d : String) (n : Nat) : reasonDomain d ≠ reasonHidden n := by
  intro h
  have := congrArg String.data h
  simp [reasonDomain, reasonHidden] at this

theorem reasonDomain_ne_brand (d b p : String) : reasonDomain d ≠ reasonBrand b p := by
  intro h
  have := congrArg String.data h
  simp [reasonDomain, reasonBrand] at this

theorem reasonHttps_ne_hidden (n : Nat) : reasonHttps ≠ reasonHidden n := by
  intro h
  have := congrArg String.data h
  simp [reasonHttps, reasonHidden] at this

theorem reasonHttps_ne_brand (b p : String) : reasonHttps ≠ reasonBrand b p := by
  intro h
  have := congrArg String.data h
  simp [reasonHttps, reasonBrand] at this

theorem reasonHidden_ne_brand (n : Nat) (b p : String) : reasonHidden n ≠ reasonBrand b p := by
  intro h
  have := congrArg String.data h
  simp [reasonHidden, reasonBrand] at this

/-! ## Risk Evaluator -/

theorem pushedReasons_nodup (info : FormInfo) (sb : SbVerdict) :
    (pushedReasons info sb).Nodup := by
  unfold pushedReasons brandReasons
  have h1 := reasonUnsafe_ne_domain info.actionDomain
  have h2 := reasonUnsafe_ne_https
  have h3 := reasonUnsafe_ne_hidden (hiddenCount info)
  have h5 := reasonDomain_ne_https info.actionDomain
  have h6 := reasonDomain_ne_hidden info.actionDomain (hiddenCount info)
  have h8 := reasonHttps_ne_hidden (hiddenCount info)
  cases hb : info.brand with
  | none => split_ifs <;> simp [*]
  | some b =>
    have h4 := reasonUnsafe_ne_brand b info.pageDomain
    have h7 := reasonDomain_ne_brand info.actionDomain b info.pageDomain
    have h9 := reasonHttps_ne_brand b info.pageDomain
    have h10 := reasonHidden_ne_brand (hiddenCount info) b info.pageDomain
    by_cases hc : (truthyStr b && !(includes info.pageDomain b)) = true
    · simp only [hc, if_true]
      split_ifs <;> simp [*]
    · simp only [hc, if_false]
      split_ifs <;> simp [*]

/-- C1: a snapshot without a password field yields no reasons, whatever the
verdict and the other attributes are. -/
theorem C1_no_password_no_reasons (info : FormInfo) (sb : SbVerdict)
    (h : info.hasPassword = false) : evaluateFormRisk info sb = [] := by
  simp [evaluateFormRisk, h]

theorem C1_no_password_no_reasons_witness :
    evaluateFormRisk
      { action := "https://evil.test/collect", method := "POST",
        inputs := [⟨"input", "hidden", "a", "", true⟩, ⟨"input", "hidden", "b", "", true⟩],
        hasPassword := false, pageDomain := "bank-example.com", actionDomain := "evil.test",
        isHTTPS := false, brand := some "paypal", pageTitle := "" }
      { status := "unsafe" } = [] :=
  C1_no_password_no_reasons _ _ rfl

/-- C2 as stated fails: a password form whose action domain is the empty string
(an action without host) differs from the page domain and gets no
different-domain reason. -/
theorem C2_empty_action_domain_counterexample :
    ¬ (∀ (info : FormInfo) (sb : SbVerdict), info.hasPassword = true →
        info.actionDomain ≠ info.pageDomain →
        reasonDomain info.actionDomain ∈ evaluateFormRisk info sb) := by
  intro h
  have := h { action := "mailto:a@b.c", method := "GET", inputs := [], hasPassword := true,
              pageDomain := "bank-example.com", actionDomain := "", isHTTPS := true,
              brand := none, pageTitle := "" } sbUnknown rfl (by decide)
  revert this
  decide

/-- C2 amended: for a snapshot with a password field whose action domain is
non-empty and differs from the page domain, the different-domain reason naming
that action domain is among the reasons, for every verdict. -/
theorem C2_different_domain_reason (info : FormInfo) (sb : SbVerdict)
    (hp : info.hasPassword = true) (hne : info.actionDomain ≠ "")
    (hd : info.actionDomain ≠ info.pageDomain) :
    reasonDomain info.actionDomain ∈ evaluateFormRisk info sb := by
  have ht : truthyStr info.actionDomain = true := (truthyStr_iff _).mpr hne
  simp only [evaluateFormRisk, hp, Bool.not_true, Bool.false_eq_true, if_false]
  rw [mem_setToArray]
  simp [pushedReasons, ht, hd]

theorem C2_different_domain_reason_witness :
    "Form posts to a different domain: evil.test" ∈
      evaluateFormRisk
        { action := "https://evil.test/collect", method := "POST", inputs := [],
          hasPassword := true, pageDomain := "bank-example.com", actionDomain := "evil.test",
          isHTTPS := true, brand := none, pageTitle := "" }
        { status := "safe" } :=
  C2_different_domain_reason _ _ rfl (by decide) (by decide)

/-- C3: for a snapshot with a password field the result is exactly the list of the
reasons whose condition holds, in the order unsafe verdict, different non-empty
action domain, page not HTTPS, two or more hidden inputs, brand guess not
contained in the page domain; and no reason occurs twice. -/
theorem C3_reasons_exact_and_distinct (info : FormInfo) (sb : SbVerdict)
    (hp : info.hasPassword = true) :
    evaluateFormRisk info sb =
      (if sb.status = "unsafe" then ["Safe Browsing: URL flagged as unsafe."] else [])
      ++ (if info.actionDomain ≠ "" ∧ info.actionDomain ≠ info.pageDomain
            then ["Form posts to a different domain: " ++ info.actionDomain] else [])
      ++ (if info.isHTTPS = false then ["Page is not HTTPS."] else [])
      ++ (if 2 ≤ (info.inputs.filter (fun i => i.hidden)).length
            then ["Form contains " ++ toString (info.inputs.filter (fun i => i.hidden)).length
                    ++ " hidden inputs (possible exfiltration)."] else [])
      ++ (match info.brand with
          | some b =>
            if ¬ (b.data <:+: info.pageDomain.data)
              then ["Page appears to impersonate " ++ b ++ " but domain is "
                      ++ info.pageDomain ++ "."] else []
          | none => [])
    ∧ (evaluateFormRisk info sb).Nodup := by
  have hev : evaluateFormRisk info sb = pushedReasons info sb := by
    simp only [evaluateFormRisk, hp, Bool.not_true, Bool.false_eq_true, if_false]
    exact setToArray_of_nodup _ (pushedReasons_nodup info sb)
  refine ⟨?_, hev ▸ pushedReasons_nodup info sb⟩
  rw [hev]
  unfold pushedReasons brandReasons hiddenCount reasonUnsafe reasonDomain reasonHttps
    reasonHidden reasonBrand
  congr 1
  · congr 1
    · congr 1
      · congr 1
        by_cases h1 : info.actionDomain = ""
        · simp [h1, truthyStr]
        · by_cases h2 : info.actionDomain = info.pageDomain
          · simp [h1, h2, truthyStr]
          · simp [h1, h2, truthyStr]
      · cases info.isHTTPS <;> simp
  · cases info.brand with
    | none => rfl
    | some b =>
      by_cases hb : b = ""
      · subst hb
        simp [truthyStr]
      · by_cases hin : includes info.pageDomain b = true
        · have := (includes_iff _ _).mp hin
          simp [truthyStr, hb, hin, this]
        · have hn : ¬ (b.data <:+: info.pageDomain.data) := fun h => hin ((includes_iff _ _).mpr h)
          simp [truthyStr, hb, hin, hn]

theorem C3_reasons_exact_and_distinct_witness :
    evaluateFormRisk
        { action := "https://evil.test/collect", method := "POST",
          inputs := [⟨"input", "hidden", "a", "", true⟩, ⟨"input", "hidden", "b", "", true⟩,
                     ⟨"input", "password", "p", "", false⟩],
          hasPassword := true, pageDomain := "bank-example.com", actionDomain := "evil.test",
          isHTTPS := false, brand := some "paypal", pageTitle := "" }
        { status := "unsafe" }
      = ["Safe Browsing: URL flagged as unsafe.",
         "Form posts to a different domain: evil.test",
         "Page is not HTTPS.",
         "Form contains 2 hidden inputs (possible exfiltration).",
         "Page appears to impersonate paypal but domain is bank-example.com."] := by
  have h := (C3_reasons_exact_and_distinct
    { action := "https://evil.test/collect", method := "POST",
      inputs := [⟨"input", "hidden", "a", "", true⟩, ⟨"input", "hidden", "b", "", true⟩,
                 ⟨"input", "password", "p", "", false⟩],
      hasPassword := true, pageDomain := "bank-example.com", actionDomain := "evil.test",
      isHTTPS := false, brand := some "paypal", pageTitle := "" }
    { status := "unsafe" } rfl).1
  rw [h]
  decide

/-! ## The log under the handlers of the content script -/

theorem showWarningModal_log (st : State) (t : ModalTarget) (rs : List String)
    (info : ModalInfo) : (showWarningModal st t rs info).log = st.log := by
  unfold showWarningModal
  split_ifs <;> rfl

theorem interceptClick_log (st : State) (ev : ClickEvent) (i : Nat) (f : Form) :
    (interceptClick st ev i f).1.log = st.log := by
  unfold interceptClick
  simp only
  split_ifs
  · rfl
  · exact showWarningModal_log _ _ _ _
  · rfl

theorem clickListener1_log (st : State) (ev : ClickEvent) :
    (clickListener1 st ev).1.log = st.log := by
  unfold clickListener1
  split_ifs <;> try rfl
  split <;> try rfl
  split <;> try rfl
  split <;> try rfl
  split_ifs
  · rfl
  · exact interceptClick_log _ _ _ _

theorem clickListener2_log (st : State) (ev : ClickEvent) :
    (clickListener2 st ev).1.log = st.log := by
  unfold clickListener2
  split_ifs <;> try rfl
  split <;> try rfl
  split <;> try rfl
  split <;> try rfl
  exact interceptClick_log _ _ _ _

theorem dispatchClickEvent_log (st : State) (ev : ClickEvent) :
    (dispatchClickEvent st ev).1.log = st.log := by
  unfold dispatchClickEvent
  simp only
  split_ifs
  · exact clickListener1_log st ev
  · rw [clickListener2_log, clickListener1_log]

/-- The network calls of a log are its uses of the original `fetch` and `send`. -/
theorem mem_networkCalls (log : List Effect) (e : Effect) :
    e ∈ networkCalls log ↔
      e ∈ log ∧ ((∃ input init, e = .origFetch input init) ∨ (∃ xhr body, e = .origSend xhr body)) := by
  unfold networkCalls
  rw [List.mem_filter]
  cases e <;> simp [isNetworkCall]

theorem networkCalls_emit (st : State) (e : Effect) (h : isNetworkCall e = false) :
    networkCalls (st.emit e).log = networkCalls st.log := by
  simp [networkCalls, State.emit, List.filter_append, h]

theorem wrappedSubmit_networkCalls (st : State) (i : Nat) :
    networkCalls (wrappedSubmit st i).log = networkCalls st.log := by
  unfold wrappedSubmit
  split
  · rfl
  · simp only
    split_ifs
    · exact networkCalls_emit _ _ rfl
    · rw [showWarningModal_log]
    · exact networkCalls_emit _ _ rfl

theorem callFormSubmit_networkCalls (st : State) (i : Nat) :
    networkCalls (callFormSubmit st i).log = networkCalls st.log := by
  unfold callFormSubmit
  split
  · rfl
  · split_ifs
    · exact wrappedSubmit_networkCalls st i
    · exact networkCalls_emit _ _ rfl

theorem setBypass_log (st : State) (t : ModalTarget) : (setBypass st t).log = st.log := by
  cases t <;> rfl

theorem proceedClick_networkCalls (st : State) :
    networkCalls (proceedClick st).log = networkCalls st.log := by
  unfold proceedClick
  split
  · rfl
  · rename_i m _
    simp only
    split
    · rename_i btn _
      rw [networkCalls_emit _ (.dispatchClick btn _) rfl, dispatchClickEvent_log, setBypass_log]
    · cases hm : m.target with
      | form i =>
        simp only [callSubmitOn]
        rw [callFormSubmit_networkCalls, setBypass_log]
      | body =>
        simp only [callSubmitOn]
        rw [networkCalls_emit _ .typeError rfl, setBypass_log]

theorem applyDecision_networkCalls (st : State) (d : Decision) :
    networkCalls (applyDecision st d).log = networkCalls st.log := by
  cases d with
  | report =>
    simp only [applyDecision, reportClick]
    split
    · rfl
    · split_ifs
      · exact networkCalls_emit _ _ rfl
      · rfl
  | cancel =>
    simp only [applyDecision, cancelClick]
    split <;> rfl
  | proceed => exact proceedClick_networkCalls st

theorem decisions_networkCalls (ds : List Decision) (st : State) :
    networkCalls (ds.foldl applyDecision st).log = networkCalls st.log := by
  induction ds generalizing st with
  | nil => rfl
  | cons d ds ih => rw [List.foldl_cons, ih, applyDecision_networkCalls]

theorem pattTest_iff (s : String) :
    pattTest s = true ↔ ∃ w ∈ credentialWords, w.data <:+: (toLowerCase s).data := by
  unfold pattTest
  rw [List.any_eq_true]
  constructor
  · rintro ⟨w, hw, h⟩
    exact ⟨w, hw, (includes_iff _ _).mp h⟩
  · rintro ⟨w, hw, h⟩
    exact ⟨w, hw, (includes_iff _ _).mpr h⟩

theorem pattTest_truthy (s : String) (h : pattTest s = true) : truthyStr s = true := by
  rw [truthyStr_iff]
  rintro rfl
  revert h
  decide

/-! ## Network-call overrides -/

theorem formDataString_data (es : List (String × String)) :
    (formDataString es).data
      = es.flatMap (fun kv => kv.1.data ++ '=' :: kv.2.data ++ ['&']) := by
  have aux : ∀ (es : List (String × String)) (acc : String),
      (es.foldl (fun s kv => s ++ (kv.1 ++ "=" ++ kv.2 ++ "&")) acc).data
        = acc.data ++ es.flatMap (fun kv => kv.1.data ++ '=' :: kv.2.data ++ ['&']) := by
    intro es
    induction es with
    | nil => intro acc; simp
    | cons kv es ih =>
      intro acc
      rw [List.foldl_cons, ih]
      simp [String.data_append]
  have := aux es ""
  simpa [formDataString] using this

/-- The text searched in a body, by the shape of the body. -/
theorem bodyText_iff (b : Body) (text : String) :
    bodyText b = some text ↔
      (b = .str text ∨ b = .urlSearchParams text
        ∨ (∃ es, b = .formData es
            ∧ text.data = es.flatMap (fun kv => kv.1.data ++ '=' :: kv.2.data ++ ['&']))
        ∨ b = .object (some text)) := by
  cases b with
  | str s => simp [bodyText]
  | urlSearchParams s => simp [bodyText]
  | formData es =>
    simp only [bodyText, Option.some.injEq, reduceCtorEq, false_or, or_false, Body.formData.injEq,
      exists_eq_left']
    rw [← formDataString_data, String.ext_iff]
    exact eq_comm
  | object j => simp [bodyText]
  | undefined => simp [bodyText]
  | null => simp [bodyText]
  | other => simp [bodyText]

/-- The pattern test, spelled out: one of the seven words occurs in the text with
its ASCII letters lower-cased. -/
theorem pattTest_spelled (text : String) :
    pattTest text = true ↔
      ∃ w ∈ ["pass", "pwd", "password", "user", "email", "u_name", "uname"],
        w.data <:+: text.data.map Char.toLower :=
  pattTest_iff text

/-- The URL recorded for a call: the string itself, or the `url` of the object. -/
theorem inputUrl_cases (u : String) (m ou : Option String) (rb : Body) :
    inputUrl (.str u) = some u ∧ inputUrl (.obj m ou rb) = ou ∧ inputUrl .null = none :=
  ⟨rfl, rfl, rfl⟩

/-- The element handed to the modal for a network call: the first form of the
document when there is one, `document.body` otherwise. -/
theorem firstFormOrBody_cases (st : State) :
    (st.forms = [] → firstFormOrBody st = .body)
    ∧ (st.forms ≠ [] → firstFormOrBody st = .form 0) := by
  unfold firstFormOrBody
  cases st.forms <;> simp

theorem inputMethod_eq_post (input : FetchInput) :
    inputMethod input = "POST" ↔ ∃ url rb, input = .obj (some "POST") url rb := by
  cases input with
  | str u => simp [inputMethod]
  | null => simp [inputMethod]
  | obj m u rb =>
    cases m with
    | none => simp [inputMethod, orDefault]
    | some mm =>
      by_cases hm : mm = ""
      · subst hm
        simp [inputMethod, orDefault, truthyStr]
      · simp [inputMethod, orDefault, truthyStr, hm]

theorem fetchMethod_obj_eq_post (upper : String → String) (input : FetchInput)
    (i : FetchInit) :
    fetchMethod upper input (.obj i) = "POST" ↔
      ((∃ m, i.method = some m ∧ m ≠ "" ∧ upper m = "POST")
        ∨ ((i.method = none ∨ i.method = some "")
            ∧ ∃ url rb, input = .obj (some "POST") url rb)) := by
  unfold fetchMethod
  simp only [InitArg.fields]
  cases hmeth : i.method with
  | none => simp [inputMethod_eq_post]
  | some m =>
    by_cases hm : m = ""
    · subst hm
      simp [truthyStr, inputMethod_eq_post]
    · simp [truthyStr, hm]

theorem wrappedFetch_suspends (st : State) (hm : st.modalOpen = false) (input : FetchInput)
    (init : InitArg) (i : FetchInit) (text : String)
    (hpost : fetchMethod st.page.toUpperCase input init = "POST")
    (hi : init.fields = some i) (hb : bodyText i.body = some text) (hp : pattTest text = true) :
    wrappedFetch st input init =
      ({ st with pendingAjax := st.pendingAjax ++ [.fetch (inputUrl input) init],
                 modalOpen := true,
                 overlay := some ⟨firstFormOrBody st, [ajaxReason],
                   .ajax "fetch" (inputUrl input) text⟩ }, .suspended) := by
  have ht := pattTest_truthy text hp
  simp [wrappedFetch, hpost, hi, extractCredentialsFromBody, hb, hp, ht, triggerAjaxWarning,
    showWarningModal, hm, firstFormOrBody]

theorem wrappedFetch_forwards (st : State) (input : FetchInput) (init : InitArg)
    (h : ¬ (fetchMethod st.page.toUpperCase input init = "POST" ∧
      ∃ i text, init.fields = some i ∧ bodyText i.body = some text ∧ pattTest text = true)) :
    wrappedFetch st input init = (st.emit (.origFetch input init), .forwarded) := by
  unfold wrappedFetch
  simp only
  split_ifs with hpost
  · cases hi : init.fields with
    | none => rfl
    | some i =>
      simp only [extractCredentialsFromBody]
      cases hb : bodyText i.body with
      | none => rfl
      | some text =>
        by_cases hp : pattTest text = true
        · exact absurd ⟨hpost, i, text, hi, hb, hp⟩ h
        · simp [hp]
  · rfl

theorem wrappedSend_suspends (st : State) (hm : st.modalOpen = false) (xhr : Xhr)
    (body : Body) (text : String) (hpost : xhrMethod st.page.toUpperCase xhr = "POST")
    (hb : bodyText body = some text) (hp : pattTest text = true) :
    wrappedSend st xhr body =
      ({ st with pendingAjax := st.pendingAjax ++
                   [.xhr xhr.ffdMethod xhr.ffdUrl (xhr.ffdHeaders.getD []) body],
                 modalOpen := true,
                 overlay := some ⟨firstFormOrBody st, [ajaxReason],
                   .ajax "xhr" xhr.ffdUrl text⟩ }, .suspended) := by
  have ht := pattTest_truthy text hp
  simp [wrappedSend, hpost, extractCredentialsFromBody, hb, hp, ht, triggerAjaxWarning,
    showWarningModal, hm, firstFormOrBody]

theorem wrappedSend_forwards (st : State) (xhr : Xhr) (body : Body)
    (h : ¬ (xhrMethod st.page.toUpperCase xhr = "POST" ∧
      ∃ text, bodyText body = some text ∧ pattTest text = true)) :
    wrappedSend st xhr body = (st.emit (.origSend xhr body), .forwarded) := by
  unfold wrappedSend
  simp only
  split_ifs with hpost
  · simp only [extractCredentialsFromBody]
    cases hb : bodyText body with
    | none => rfl
    | some text =>
      by_cases hp : pattTest text = true
      · exact absurd ⟨hpost, text, hb, hp⟩ h
      · simp [hp]
  · rfl

theorem xhrMethod_eq_post (upper : String → String) (hget : upper "GET" = "GET")
    (xhr : Xhr) :
    xhrMethod upper xhr = "POST" ↔
      ∃ m, xhr.ffdMethod = some m ∧ m ≠ "" ∧ upper m = "POST" := by
  unfold xhrMethod
  cases hmeth : xhr.ffdMethod with
  | none => simp [orDefault, hget]
  | some m =>
    by_cases hm : m = ""
    · subst hm
      simp [orDefault, truthyStr, hget]
    · simp [orDefault, truthyStr, hm]

theorem wrappedFetch_cond_iff (upper : String → String) (input : FetchInput)
    (init : InitArg) :
    (fetchMethod upper input init = "POST" ∧
      ∃ i text, init.fields = some i ∧ bodyText i.body = some text ∧ pattTest text = true)
    ↔ ∃ i text, init = .obj i
        ∧ ((∃ m, i.method = some m ∧ m ≠ "" ∧ upper m = "POST")
            ∨ ((i.method = none ∨ i.method = some "")
                ∧ ∃ url rb, input = .obj (some "POST") url rb))
        ∧ (i.body = .str text ∨ i.body = .urlSearchParams text
            ∨ (∃ es, i.body = .formData es
                ∧ text.data = es.flatMap (fun kv => kv.1.data ++ '=' :: kv.2.data ++ ['&']))
            ∨ i.body = .object (some text))
        ∧ ∃ w ∈ ["pass", "pwd", "password", "user", "email", "u_name", "uname"],
            w.data <:+: text.data.map Char.toLower := by
  constructor
  · rintro ⟨hpost, i, text, hi, hb, hp⟩
    cases init with
    | undefined =>
      simp only [InitArg.fields, Option.some.injEq] at hi
      subst hi
      simp [bodyText] at hb
    | null => simp [InitArg.fields] at hi
    | obj j =>
      simp only [InitArg.fields, Option.some.injEq] at hi
      subst hi
      exact ⟨j, text, rfl, (fetchMethod_obj_eq_post upper input j).mp hpost,
        (bodyText_iff _ _).mp hb, (pattTest_spelled text).mp hp⟩
  · rintro ⟨i, text, hinit, hmeth, hb, hp⟩
    subst hinit
    exact ⟨(fetchMethod_obj_eq_post upper input i).mpr hmeth, i, text, rfl,
      (bodyText_iff _ _).mpr hb, (pattTest_spelled text).mpr hp⟩

/-- C4 as stated fails: a `fetch` of a request object whose method is POST and
whose own body is the JSON text of the scenario, called without `init`, is
handed to the original `fetch`; nothing is enqueued and no modal opens. -/
theorem C4_request_body_counterexample :
    bankState.modalOpen = false
    ∧ inputMethod (.obj (some "POST") (some "/api/login") (.str loginJson)) = "POST"
    ∧ pattTest loginJson = true
    ∧ (wrappedFetch bankState (.obj (some "POST") (some "/api/login") (.str loginJson))
        .undefined).2 = .forwarded
    ∧ (wrappedFetch bankState (.obj (some "POST") (some "/api/login") (.str loginJson))
        .undefined).1.log
        = [.origFetch (.obj (some "POST") (some "/api/login") (.str loginJson)) .undefined]
    ∧ (wrappedFetch bankState (.obj (some "POST") (some "/api/login") (.str loginJson))
        .undefined).1.pendingAjax = []
    ∧ (wrappedFetch bankState (.obj (some "POST") (some "/api/login") (.str loginJson))
        .undefined).1.modalOpen = false := by
  decide

/-- C4 amended: with no modal open, and `toUpperCase` acting on ASCII strings as
JavaScript does, a call through the wrapped `fetch` is suspended exactly when
the body given in `init` (as a string, URLSearchParams text, FormData fields
joined as `k=v&`, or JSON text of an object) contains one of the seven
credential words in either case and the method is POST: the upper-cased
non-empty `init.method`, or else the method of a request object passed as
input. A call through the wrapped `send` is suspended exactly when the
upper-cased non-empty method given to `open` is POST and the argument of
`send` contains such a word. A suspended call appends one pending entry,
opens the modal with the single script-exfiltration reason, and no use of the
original `fetch` or `send` is logged, then or after any decisions on the
modal. Every other call, a request object carrying its own body included, is
handed to the original primitive with the same arguments and changes nothing
else. The POST to `/api/login` of the scenario is suspended. -/
theorem C4_network_call_suspended_iff_credential_post (st : State)
    (hm : st.modalOpen = false)
    (hup : ∀ s : String, (∀ c ∈ s.data, c.toNat < 128) →
      st.page.toUpperCase s = String.mk (s.data.map Char.toUpper)) :
    (∀ (input : FetchInput) (init : InitArg),
      (∀ i text, init = .obj i →
          ((∃ m, i.method = some m ∧ m ≠ "" ∧ st.page.toUpperCase m = "POST")
            ∨ ((i.method = none ∨ i.method = some "")
                ∧ ∃ url rb, input = .obj (some "POST") url rb)) →
          (i.body = .str text ∨ i.body = .urlSearchParams text
            ∨ (∃ es, i.body = .formData es
                ∧ text.data = es.flatMap (fun kv => kv.1.data ++ '=' :: kv.2.data ++ ['&']))
            ∨ i.body = .object (some text)) →
          (∃ w ∈ ["pass", "pwd", "password", "user", "email", "u_name", "uname"],
            w.data <:+: text.data.map Char.toLower) →
        wrappedFetch st input init =
          ({ st with pendingAjax := st.pendingAjax ++ [.fetch (inputUrl input) init],
                     modalOpen := true,
                     overlay := some ⟨firstFormOrBody st,
                       ["Possible credential exfiltration detected via JavaScript (AJAX)."],
                       .ajax "fetch" (inputUrl input) text⟩ }, .suspended)
        ∧ ∀ ds : List Decision,
            networkCalls (ds.foldl applyDecision (wrappedFetch st input init).1).log
              = networkCalls st.log)
      ∧ (¬ (∃ i text, init = .obj i
            ∧ ((∃ m, i.method = some m ∧ m ≠ "" ∧ st.page.toUpperCase m = "POST")
                ∨ ((i.method = none ∨ i.method = some "")
                    ∧ ∃ url rb, input = .obj (some "POST") url rb))
            ∧ (i.body = .str text ∨ i.body = .urlSearchParams text
                ∨ (∃ es, i.body = .formData es
                    ∧ text.data
                        = es.flatMap (fun kv => kv.1.data ++ '=' :: kv.2.data ++ ['&']))
                ∨ i.body = .object (some text))
            ∧ ∃ w ∈ ["pass", "pwd", "password", "user", "email", "u_name", "uname"],
                w.data <:+: text.data.map Char.toLower) →
          wrappedFetch st input init = (st.emit (.origFetch input init), .forwarded)))
    ∧ (∀ (xhr : Xhr) (body : Body),
      (∀ m text, xhr.ffdMethod = some m → m ≠ "" → st.page.toUpperCase m = "POST" →
          (body = .str text ∨ body = .urlSearchParams text
            ∨ (∃ es, body = .formData es
                ∧ text.data = es.flatMap (fun kv => kv.1.data ++ '=' :: kv.2.data ++ ['&']))
            ∨ body = .object (some text)) →
          (∃ w ∈ ["pass", "pwd", "password", "user", "email", "u_name", "uname"],
            w.data <:+: text.data.map Char.toLower) →
        wrappedSend st xhr body =
          ({ st with pendingAjax := st.pendingAjax ++
                       [.xhr xhr.ffdMethod xhr.ffdUrl (xhr.ffdHeaders.getD []) body],
                     modalOpen := true,
                     overlay := some ⟨firstFormOrBody st,
                       ["Possible credential exfiltration detected via JavaScript (AJAX)."],
                       .ajax "xhr" xhr.ffdUrl text⟩ }, .suspended)
        ∧ ∀ ds : List Decision,
            networkCalls (ds.foldl applyDecision (wrappedSend st xhr body).1).log
              = networkCalls st.log)
      ∧ (¬ (∃ m text, xhr.ffdMethod = some m ∧ m ≠ "" ∧ st.page.toUpperCase m = "POST"
            ∧ (body = .str text ∨ body = .urlSearchParams text
                ∨ (∃ es, body = .formData es
                    ∧ text.data
                        = es.flatMap (fun kv => kv.1.data ++ '=' :: kv.2.data ++ ['&']))
                ∨ body = .object (some text))
            ∧ ∃ w ∈ ["pass", "pwd", "password", "user", "email", "u_name", "uname"],
                w.data <:+: text.data.map Char.toLower) →
          wrappedSend st xhr body = (st.emit (.origSend xhr body), .forwarded)))
    ∧ (wrappedFetch st (.str "/api/login")
        (.obj { method := some "POST",
                body := .object (some "\x7b\"username\":\"a\",\"password\":\"b\"\x7d") })).2
        = .suspended
    ∧ (wrappedSend st { ffdMethod := some "POST", ffdUrl := some "/api/login" }
        (.str "\x7b\"username\":\"a\",\"password\":\"b\"\x7d")).2 = .suspended := by
  have hget : st.page.toUpperCase "GET" = "GET" := by
    rw [hup "GET" (by decide)]
    decide
  have hPOST : st.page.toUpperCase "POST" = "POST" := by
    rw [hup "POST" (by decide)]
    decide
  refine ⟨fun input init => ⟨fun i text hinit hmeth hb hp => ?_, fun hneg => ?_⟩,
    fun xhr body => ⟨fun m text hmeth hne hU hb hp => ?_, fun hneg => ?_⟩, ?_, ?_⟩
  · have hc := (wrappedFetch_cond_iff st.page.toUpperCase input init).mpr
      ⟨i, text, hinit, hmeth, hb, hp⟩
    subst hinit
    have h := wrappedFetch_suspends st hm input (.obj i) i text hc.1 rfl
      ((bodyText_iff _ _).mpr hb) ((pattTest_spelled text).mpr hp)
    refine ⟨h, fun ds => ?_⟩
    rw [decisions_networkCalls, h]
  · exact wrappedFetch_forwards st input init
      (fun hc => hneg ((wrappedFetch_cond_iff st.page.toUpperCase input init).mp hc))
  · have hx : xhrMethod st.page.toUpperCase xhr = "POST" :=
      (xhrMethod_eq_post _ hget xhr).mpr ⟨m, hmeth, hne, hU⟩
    have h := wrappedSend_suspends st hm xhr body text hx
      ((bodyText_iff _ _).mpr hb) ((pattTest_spelled text).mpr hp)
    refine ⟨h, fun ds => ?_⟩
    rw [decisions_networkCalls, h]
  · apply wrappedSend_forwards st xhr body
    rintro ⟨hx, text, hb, hp⟩
    obtain ⟨m, hmeth, hne, hU⟩ := (xhrMethod_eq_post _ hget xhr).mp hx
    exact hneg ⟨m, text, hmeth, hne, hU, (bodyText_iff _ _).mp hb,
      (pattTest_spelled text).mp hp⟩
  · rw [wrappedFetch_suspends st hm (.str "/api/login")
      (.obj { method := some "POST",
              body := .object (some "\x7b\"username\":\"a\",\"password\":\"b\"\x7d") })
      { method := some "POST",
        body := .object (some "\x7b\"username\":\"a\",\"password\":\"b\"\x7d") }
      "\x7b\"username\":\"a\",\"password\":\"b\"\x7d"
      ((fetchMethod_obj_eq_post _ _ _).mpr (Or.inl ⟨"POST", rfl, by decide, hPOST⟩))
      rfl rfl (by decide)]
  · rw [wrappedSend_suspends st hm { ffdMethod := some "POST", ffdUrl := some "/api/login" }
      (.str "\x7b\"username\":\"a\",\"password\":\"b\"\x7d")
      "\x7b\"username\":\"a\",\"password\":\"b\"\x7d"
      ((xhrMethod_eq_post _ hget _).mpr ⟨"POST", rfl, by decide, hPOST⟩) rfl (by decide)]

theorem C4_network_call_suspended_iff_credential_post_witness :
    (wrappedFetch bankState (.str "/api/login")
        (.obj { method := some "POST",
                body := .object (some "\x7b\"username\":\"a\",\"password\":\"b\"\x7d") })).2
      = .suspended
    ∧ wrappedFetch bankState (.obj (some "POST") (some "/api/login") (.str loginJson))
        .undefined
      = (bankState.emit
          (.origFetch (.obj (some "POST") (some "/api/login") (.str loginJson)) .undefined),
         .forwarded) :=
  ⟨(C4_network_call_suspended_iff_credential_post bankState rfl (fun _ _ => rfl)).2.2.1,
   ((C4_network_call_suspended_iff_credential_post bankState rfl (fun _ _ => rfl)).1
      (.obj (some "POST") (some "/api/login") (.str loginJson)) .undefined).2
      (by rintro ⟨i, text, h, _⟩; cases h)⟩

/-! ## Service worker: cache and remote query -/

theorem readCache_absent (st : SWState) (key : String) (now : Int)
    (h : st.cache key = none) : readCache st key now = (none, st) := by
  simp [readCache, h]

theorem readCache_fresh (st : SWState) (key : String) (now : Int) (e : CacheEntry)
    (h : st.cache key = some e) (ht : now - e.ts < CACHE_TTL_MS) :
    readCache st key now = (some e, st) := by
  simp [readCache, h, ht]

theorem readCache_expired (st : SWState) (key : String) (now : Int) (e : CacheEntry)
    (h : st.cache key = some e) (ht : ¬ (now - e.ts < CACHE_TTL_MS)) :
    readCache st key now
      = (none, { st with cache := fun k => if k = key then none else st.cache k }) := by
  simp [readCache, h, ht]

theorem readCache_fetches (st : SWState) (key : String) (now : Int) :
    (readCache st key now).2.fetches = st.fetches := by
  unfold readCache
  split
  · rfl
  · split_ifs <;> rfl

theorem query_state_of_valid (validUrl : String → Bool) (st : SWState) (url : String)
    (o : FetchOutcome) (hv : validUrl url = true) :
    (queryGoogleSafeBrowsing validUrl st url o).2
      = { st with fetches := st.fetches ++ [url] } := by
  unfold queryGoogleSafeBrowsing
  simp only [hv, Bool.not_true, Bool.false_eq_true, if_false]
  cases o with
  | networkError msg => rfl
  | response status json =>
    simp only
    split_ifs
    · rfl
    · split <;> rfl

theorem query_state_of_invalid (validUrl : String → Bool) (st : SWState) (url : String)
    (o : FetchOutcome) (hv : validUrl url = false) :
    queryGoogleSafeBrowsing validUrl st url o
      = ({ status := "unknown", error := some "invalid_url" }, st) := by
  simp [queryGoogleSafeBrowsing, hv]

theorem query_cache (validUrl : String → Bool) (st : SWState) (url : String)
    (o : FetchOutcome) : (queryGoogleSafeBrowsing validUrl st url o).2.cache = st.cache := by
  cases hv : validUrl url with
  | true => rw [query_state_of_valid validUrl st url o hv]
  | false => rw [query_state_of_invalid validUrl st url o hv]

theorem valid_of_query_not_unknown (validUrl : String → Bool) (st : SWState) (url : String)
    (o : FetchOutcome)
    (h : (queryGoogleSafeBrowsing validUrl st url o).1.status ≠ "unknown") :
    validUrl url = true := by
  cases hv : validUrl url with
  | true => rfl
  | false =>
    rw [query_state_of_invalid validUrl st url o hv] at h
    exact absurd rfl h

/-- The handler when the cache read misses. -/
theorem safeBrowseCheck_of_miss (validUrl : String → Bool) (st : SWState) (url : String)
    (tRead tWrite : Int) (o : FetchOutcome)
    (h : (readCache st (cacheKey url) tRead).1 = none) :
    safeBrowseCheck validUrl st url tRead tWrite o =
      let q := queryGoogleSafeBrowsing validUrl (readCache st (cacheKey url) tRead).2 url o
      ({ data := q.1 },
       if q.1.status != "unknown" then writeCache q.2 (cacheKey url) q.1 tWrite else q.2) := by
  unfold safeBrowseCheck
  cases hr : readCache st (cacheKey url) tRead with
  | mk c st1 =>
    rw [hr] at h
    simp only at h
    subst h
    rfl

/-- The handler when the cache read hits. -/
theorem safeBrowseCheck_of_hit (validUrl : String → Bool) (st : SWState) (url : String)
    (tRead tWrite : Int) (o : FetchOutcome) (e : CacheEntry)
    (h : st.cache (cacheKey url) = some e) (ht : tRead - e.ts < CACHE_TTL_MS) :
    safeBrowseCheck validUrl st url tRead tWrite o =
      ({ data := e.data, ts := some e.ts, fromCache := true }, st) := by
  unfold safeBrowseCheck
  rw [readCache_fresh st _ tRead e h ht]

/-- C7: when the handler has written an unsafe verdict for a URL at time `T` and
the entry is still in the cache, a lookup of that URL at a time `t` with
`T ≤ t < T + 24h` answers with that verdict, its timestamp and `fromCache: true`
and leaves the state, the log of remote requests included, as it was; a lookup
at `t ≥ T + 24h` finds `readCache` returning null, the entry removed, and the
remote service queried once for the answer. -/
theorem C7_unsafe_entry_served_until_ttl (validUrl : String → Bool) (st0 st : SWState)
    (url : String) (t0 T : Int) (o0 : FetchOutcome)
    (hmiss : (readCache st0 (cacheKey url) t0).1 = none)
    (hflagged : (safeBrowseCheck validUrl st0 url t0 T o0).1.data.status = "unsafe")
    (hkept : st.cache (cacheKey url)
      = (safeBrowseCheck validUrl st0 url t0 T o0).2.cache (cacheKey url)) :
    st.cache (cacheKey url)
      = some { data := (safeBrowseCheck validUrl st0 url t0 T o0).1.data, ts := T }
    ∧ (∀ (t t' : Int) (o : FetchOutcome), T ≤ t → t < T + CACHE_TTL_MS →
        safeBrowseCheck validUrl st url t t' o =
          ({ data := (safeBrowseCheck validUrl st0 url t0 T o0).1.data, ts := some T,
             fromCache := true }, st))
    ∧ (∀ (t t' : Int) (o : FetchOutcome), T + CACHE_TTL_MS ≤ t →
        (readCache st (cacheKey url) t).1 = none
        ∧ (readCache st (cacheKey url) t).2.cache (cacheKey url) = none
        ∧ (safeBrowseCheck validUrl st url t t' o).1.fromCache = false
        ∧ (safeBrowseCheck validUrl st url t t' o).1.data
            = (queryGoogleSafeBrowsing validUrl (readCache st (cacheKey url) t).2 url o).1
        ∧ (safeBrowseCheck validUrl st url t t' o).2.fetches = st.fetches ++ [url]) := by
  rw [safeBrowseCheck_of_miss validUrl st0 url t0 T o0 hmiss] at hflagged hkept ⊢
  simp only at hflagged hkept ⊢
  have hne : (queryGoogleSafeBrowsing validUrl (readCache st0 (cacheKey url) t0).2 url o0).1.status
      ≠ "unknown" := by
    rw [hflagged]
    decide
  have hvalid := valid_of_query_not_unknown validUrl _ url o0 hne
  have hentry : st.cache (cacheKey url) = some
      { data := (queryGoogleSafeBrowsing validUrl (readCache st0 (cacheKey url) t0).2 url o0).1,
        ts := T } := by
    rw [hkept]
    simp [hne, writeCache]
  refine ⟨hentry, fun t t' o h1 h2 => ?_, fun t t' o h => ?_⟩
  · exact safeBrowseCheck_of_hit validUrl st url t t' o _ hentry (by simp only; omega)
  · have hexp := readCache_expired st (cacheKey url) t _ hentry (by simp only; omega)
    have hnone : (readCache st (cacheKey url) t).1 = none := by rw [hexp]
    refine ⟨hnone, by rw [hexp]; simp, ?_, ?_, ?_⟩
    · rw [safeBrowseCheck_of_miss validUrl st url t t' o hnone]
    · rw [safeBrowseCheck_of_miss validUrl st url t t' o hnone]
    · rw [safeBrowseCheck_of_miss validUrl st url t t' o hnone]
      simp only
      split_ifs
      · simp only [writeCache]
        rw [query_state_of_valid validUrl _ url o hvalid, readCache_fetches]
      · rw [query_state_of_valid validUrl _ url o hvalid, readCache_fetches]

theorem C7_unsafe_entry_served_until_ttl_witness :
    (safeBrowseCheck sampleValidUrl
        (safeBrowseCheck sampleValidUrl emptyWorker "https://evil.test/collect" 1000 1005
          oneMatchOutcome).2
        "https://evil.test/collect" 86401004 86401009 (.networkError "offline")).1.fromCache = true
    ∧ (safeBrowseCheck sampleValidUrl
        (safeBrowseCheck sampleValidUrl emptyWorker "https://evil.test/collect" 1000 1005
          oneMatchOutcome).2
        "https://evil.test/collect" 86401005 86401009 (.networkError "offline")).1.fromCache
        = false := by
  have h := C7_unsafe_entry_served_until_ttl sampleValidUrl emptyWorker
    (safeBrowseCheck sampleValidUrl emptyWorker "https://evil.test/collect" 1000 1005
      oneMatchOutcome).2
    "https://evil.test/collect" 1000 1005 oneMatchOutcome rfl (by decide) rfl
  refine ⟨?_, (h.2.2 86401005 86401009 (.networkError "offline") (by decide)).2.2.1⟩
  rw [h.2.1 86401004 86401009 (.networkError "offline") (by decide) (by decide)]

/-- The handler leaves in the cache no entry with status unknown that was not there before. -/
theorem safeBrowseCheck_writes_no_unknown (validUrl : String → Bool) (st : SWState)
    (url : String) (tRead tWrite : Int) (o : FetchOutcome) (key : String) (e : CacheEntry)
    (h : (safeBrowseCheck validUrl st url tRead tWrite o).2.cache key = some e)
    (hu : e.data.status = "unknown") : st.cache key = some e := by
  have hread : ∀ k e1, (readCache st (cacheKey url) tRead).2.cache k = some e1 →
      st.cache k = some e1 := by
    intro k e1
    unfold readCache
    split
    · exact id
    · split_ifs
      · exact id
      · simp only
        split_ifs
        · intro hc
          exact absurd hc (by simp)
        · exact id
  cases hc : (readCache st (cacheKey url) tRead).1 with
  | some c =>
    apply hread
    have : (safeBrowseCheck validUrl st url tRead tWrite o).2
        = (readCache st (cacheKey url) tRead).2 := by
      unfold safeBrowseCheck
      cases hr : readCache st (cacheKey url) tRead with
      | mk c1 st1 =>
        rw [hr] at hc
        simp only at hc
        subst hc
        rfl
    rw [this] at h
    exact h
  | none =>
    rw [safeBrowseCheck_of_miss validUrl st url tRead tWrite o hc] at h
    simp only at h
    apply hread
    split_ifs at h with hs
    · simp only [writeCache] at h
      split_ifs at h with hk
      · have he := Option.some.inj h
        rw [← he] at hu
        simp only at hu
        simp [hu] at hs
      · rw [query_cache] at h
        exact h
    · rw [query_cache] at h
      exact h

/-- One lookup of a valid URL that is not cached and ends in unknown: one request
is sent and the URL stays uncached. -/
theorem safeBrowseCheck_unknown_step (validUrl : String → Bool) (st : SWState)
    (url : String) (l : Lookup) (hv : validUrl url = true)
    (hc : st.cache (cacheKey url) = none)
    (hu : (safeBrowseCheck validUrl st url l.tRead l.tWrite l.outcome).1.data.status
      = "unknown") :
    (safeBrowseCheck validUrl st url l.tRead l.tWrite l.outcome).2.cache (cacheKey url) = none
    ∧ (safeBrowseCheck validUrl st url l.tRead l.tWrite l.outcome).2.fetches
        = st.fetches ++ [url] := by
  have hr := readCache_absent st (cacheKey url) l.tRead hc
  have hmiss : (readCache st (cacheKey url) l.tRead).1 = none := by rw [hr]
  rw [safeBrowseCheck_of_miss validUrl st url l.tRead l.tWrite l.outcome hmiss] at hu ⊢
  simp only at hu ⊢
  rw [hr] at hu ⊢
  simp only at hu ⊢
  simp only [hu, bne_self_eq_false, Bool.false_eq_true, if_false]
  rw [query_state_of_valid validUrl st url l.outcome hv]
  exact ⟨hc, rfl⟩

theorem runLookups_unknown_fetches (validUrl : String → Bool) (url : String)
    (hv : validUrl url = true) (ls : List Lookup) (st : SWState)
    (hc : st.cache (cacheKey url) = none)
    (hu : ∀ r ∈ (runLookups validUrl st url ls).1, r.data.status = "unknown") :
    (runLookups validUrl st url ls).2.fetches.length = st.fetches.length + ls.length := by
  induction ls generalizing st with
  | nil => rfl
  | cons l ls ih =>
    simp only [runLookups] at hu ⊢
    have h1 := hu _ (List.mem_cons_self _ _)
    have hstep := safeBrowseCheck_unknown_step validUrl st url l hv hc h1
    have := ih _ hstep.1 (fun r hr => hu r (List.mem_cons_of_mem _ hr))
    rw [this, hstep.2]
    simp only [List.length_append, List.length_cons, List.length_nil]
    omega

/-- C8 as stated fails for a URL that `new URL` rejects: the lookup ends in
unknown without any request to the remote service, so one lookup makes zero
remote calls, not one. -/
theorem C8_invalid_url_counterexample :
    (∀ r ∈ (runLookups sampleValidUrl emptyWorker "not a url"
        [{ tRead := 0, tWrite := 1, outcome := .networkError "offline" }]).1,
      r.data.status = "unknown")
    ∧ (runLookups sampleValidUrl emptyWorker "not a url"
        [{ tRead := 0, tWrite := 1, outcome := .networkError "offline" }]).2.fetches.length = 0
    ∧ (runLookups sampleValidUrl emptyWorker "not a url"
        [{ tRead := 0, tWrite := 1, outcome := .networkError "offline" }]).2.fetches.length
        ≠ [({ tRead := 0, tWrite := 1, outcome := .networkError "offline" } : Lookup)].length := by
  refine ⟨?_, rfl, by decide⟩
  intro r hr
  simp only [runLookups, List.mem_singleton] at hr
  subst hr
  decide

/-- C8 amended: the handler never leaves a new entry with status unknown in the
cache; and for every URL that `new URL` accepts and every sequence of lookups
of that URL that each end in unknown, started with no entry for the URL, the
number of requests to the remote service grows by the number of lookups. -/
theorem C8_unknown_not_cached (validUrl : String → Bool) (st : SWState) (url : String) :
    (∀ (tRead tWrite : Int) (o : FetchOutcome) (key : String) (e : CacheEntry),
      (safeBrowseCheck validUrl st url tRead tWrite o).2.cache key = some e →
      e.data.status = "unknown" → st.cache key = some e)
    ∧ (∀ ls : List Lookup, validUrl url = true → st.cache (cacheKey url) = none →
        (∀ r ∈ (runLookups validUrl st url ls).1, r.data.status = "unknown") →
        (runLookups validUrl st url ls).2.fetches.length = st.fetches.length + ls.length) :=
  ⟨fun tRead tWrite o key e h hu =>
      safeBrowseCheck_writes_no_unknown validUrl st url tRead tWrite o key e h hu,
   fun ls hv hc hu => runLookups_unknown_fetches validUrl url hv ls st hc hu⟩

theorem C8_unknown_not_cached_witness :
    (runLookups sampleValidUrl emptyWorker "https://evil.test/collect"
      [{ tRead := 0, tWrite := 1, outcome := .networkError "offline" },
       { tRead := 2, tWrite := 3, outcome := .response 503 none },
       { tRead := 4, tWrite := 5, outcome := .networkError "offline" }]).2.fetches.length
      = 3 := by
  have h := (C8_unknown_not_cached sampleValidUrl emptyWorker "https://evil.test/collect").2
    [{ tRead := 0, tWrite := 1, outcome := .networkError "offline" },
     { tRead := 2, tWrite := 3, outcome := .response 503 none },
     { tRead := 4, tWrite := 5, outcome := .networkError "offline" }]
    (by decide) rfl
    (by
      intro r hr
      simp only [runLookups, List.mem_cons, List.mem_singleton, List.not_mem_nil, or_false] at hr
      rcases hr with h | h | h <;> subst h <;> decide)
  rw [h]
  rfl

/-- C9 as stated fails: a success response whose body is not well-formed JSON
yields the verdict safe, not unknown. -/
theorem C9_malformed_json_counterexample :
    sampleValidUrl "https://evil.test/collect" = true
    ∧ httpOk 200 = true
    ∧ (queryGoogleSafeBrowsing sampleValidUrl emptyWorker "https://evil.test/collect"
        (.response 200 none)).1.status = "safe"
    ∧ (queryGoogleSafeBrowsing sampleValidUrl emptyWorker "https://evil.test/collect"
        (.response 200 none)).1.status ≠ "unknown" := by
  decide

theorem string_length_ne_zero (s : String) : ((s.length : Int) != 0) = true ↔ s ≠ "" := by
  have h : s.length = 0 ↔ s = "" := by
    rw [String.ext_iff]
    exact List.length_eq_zero
  simp only [bne_iff_ne, ne_eq, Int.natCast_eq_zero, h]

/-- JavaScript truthiness of a parsed JSON value, spelled out by shape. -/
theorem Json.truthy_iff (j : Json) :
    j.truthy = true ↔
      (j = .bool true ∨ (∃ n, j = .num n ∧ n ≠ 0) ∨ (∃ s, j = .str s ∧ s ≠ "")
        ∨ (∃ xs, j = .arr xs) ∨ (∃ kvs, j = .obj kvs)) := by
  cases j with
  | null => simp [Json.truthy]
  | bool b => cases b <;> simp [Json.truthy]
  | num n => simp [Json.truthy]
  | str s => simp [Json.truthy]
  | arr xs => simp [Json.truthy]
  | obj kvs => simp [Json.truthy]

/-- The part of the test that looks at `json.matches`. -/
theorem matchValue_iff (m0 m : Json) :
    (if m0.truthy = true then
        match m0.prop "length" with
        | none => none
        | some len => if len.truthy = true then some m0 else none
      else none) = some m ↔
      m0 = m ∧ ((∃ x xs, m = .arr (x :: xs)) ∨ (∃ s, m = .str s ∧ s ≠ "")
            ∨ (∃ kvs2 len, m = .obj kvs2 ∧ kvs2.lookup "length" = some len
                ∧ (len = .bool true ∨ (∃ n, len = .num n ∧ n ≠ 0)
                    ∨ (∃ s, len = .str s ∧ s ≠ "") ∨ (∃ xs, len = .arr xs)
                    ∨ (∃ kvs3, len = .obj kvs3)))) := by
  constructor
  · intro h
    by_cases ht : m0.truthy = true
    · rw [if_pos ht] at h
      cases hp : m0.prop "length" with
      | none => rw [hp] at h; cases h
      | some len =>
        rw [hp] at h
        simp only at h
        by_cases hl : len.truthy = true
        · rw [if_pos hl] at h
          have hm : m0 = m := Option.some.inj h
          refine ⟨hm, ?_⟩
          subst hm
          cases m0 with
          | null => simp [Json.prop] at hp
          | bool b => simp [Json.prop] at hp
          | num n => simp [Json.prop] at hp
          | str s =>
            simp only [Json.prop, if_true, Option.some.injEq] at hp
            subst hp
            exact Or.inr (Or.inl ⟨s, rfl, (string_length_ne_zero s).mp hl⟩)
          | arr xs =>
            simp only [Json.prop, if_true, Option.some.injEq] at hp
            subst hp
            cases xs with
            | nil => simp [Json.truthy] at hl
            | cons x xs => exact Or.inl ⟨x, xs, rfl⟩
          | obj kvs2 =>
            simp only [Json.prop] at hp
            exact Or.inr (Or.inr ⟨kvs2, len, rfl, hp, (Json.truthy_iff len).mp hl⟩)
        · rw [if_neg hl] at h
          cases h
    · rw [if_neg ht] at h
      cases h
  · rintro ⟨rfl, h⟩
    rcases h with ⟨x, xs, rfl⟩ | ⟨s, rfl, hs⟩ | ⟨kvs2, len, rfl, hlen, hl⟩
    · have hlen : (((xs.length : Int) + 1) != 0) = true := by
        simp only [bne_iff_ne, ne_eq]
        omega
      simp [Json.truthy, Json.prop, hlen]
    · have hlen := (string_length_ne_zero s).mpr hs
      simp only [bne_iff_ne, ne_eq] at hlen
      simp [Json.truthy, Json.prop, hs, hlen]
    · have ht := (Json.truthy_iff len).mpr hl
      simp only [Json.prop, hlen]
      rw [if_pos (show (Json.obj kvs2).truthy = true from rfl), if_pos ht]

/-- The test `json && json.matches && json.matches.length`, spelled out: the body
is an object whose `matches` is a non-empty array, a non-empty string, or an
object with a truthy `length`. -/
theorem matchesOf_eq_some_iff (json : Option Json) (m : Json) :
    matchesOf json = some m ↔
      ∃ kvs, json = some (.obj kvs) ∧ kvs.lookup "matches" = some m
        ∧ ((∃ x xs, m = .arr (x :: xs)) ∨ (∃ s, m = .str s ∧ s ≠ "")
            ∨ (∃ kvs2 len, m = .obj kvs2 ∧ kvs2.lookup "length" = some len
                ∧ (len = .bool true ∨ (∃ n, len = .num n ∧ n ≠ 0)
                    ∨ (∃ s, len = .str s ∧ s ≠ "") ∨ (∃ xs, len = .arr xs)
                    ∨ (∃ kvs3, len = .obj kvs3)))) := by
  cases json with
  | none => simp [matchesOf]
  | some j =>
    cases j with
    | null => simp [matchesOf, Json.truthy]
    | bool b => cases b <;> simp [matchesOf, Json.truthy, Json.prop]
    | num n => by_cases hn : n = 0 <;> simp [matchesOf, Json.truthy, Json.prop, hn]
    | str s => by_cases hs : s = "" <;> simp [matchesOf, Json.truthy, Json.prop, hs]
    | arr xs => simp [matchesOf, Json.truthy, Json.prop]
    | obj kvs =>
      cases hl : kvs.lookup "matches" with
      | none => simp [matchesOf, Json.truthy, Json.prop, hl]
      | some m0 =>
        have hunf : matchesOf (some (.obj kvs)) =
            (if m0.truthy = true then
              match m0.prop "length" with
              | none => none
              | some len => if len.truthy = true then some m0 else none
            else none) := by
          simp only [matchesOf, Json.truthy, if_true, Json.prop, hl]
        rw [hunf, matchValue_iff]
        constructor
        · rintro ⟨rfl, h⟩
          exact ⟨kvs, rfl, hl, h⟩
        · rintro ⟨kvs1, h1, h2, h3⟩
          cases h1
          rw [hl] at h2
          exact ⟨Option.some.inj h2, h3⟩
/-- C9 amended: for a valid URL and every response of the remote service, the
verdict is unknown when the HTTP status is outside 200-299; when it is inside,
the verdict is unsafe, carrying `matches`, if the body is a JSON object whose
`matches` has a truthy `length` (a non-empty array, or a non-empty string, or
an object with a truthy `length`), and safe with an empty match list in every
other case: a body that is not well-formed JSON, a body that is not an
object, and an object whose `matches` is absent, null, empty or without
length. -/
theorem C9_query_verdict (validUrl : String → Bool) (st : SWState) (url : String)
    (status : Nat) (json : Option Json) (hv : validUrl url = true) :
    ((status < 200 ∨ 299 < status) →
      (queryGoogleSafeBrowsing validUrl st url (.response status json)).1.status = "unknown"
      ∧ (queryGoogleSafeBrowsing validUrl st url (.response status json)).1.error
          = some ("http_" ++ toString status))
    ∧ ((200 ≤ status ∧ status ≤ 299) →
      (∀ kvs m, json = some (.obj kvs) → kvs.lookup "matches" = some m →
          ((∃ x xs, m = .arr (x :: xs)) ∨ (∃ s, m = .str s ∧ s ≠ "")
            ∨ (∃ kvs2 len, m = .obj kvs2 ∧ kvs2.lookup "length" = some len
                ∧ (len = .bool true ∨ (∃ n, len = .num n ∧ n ≠ 0)
                    ∨ (∃ s, len = .str s ∧ s ≠ "") ∨ (∃ xs, len = .arr xs)
                    ∨ (∃ kvs3, len = .obj kvs3)))) →
        (queryGoogleSafeBrowsing validUrl st url (.response status json)).1.status = "unsafe"
        ∧ (queryGoogleSafeBrowsing validUrl st url (.response status json)).1.matchList
            = some m
        ∧ (queryGoogleSafeBrowsing validUrl st url (.response status json)).1.error = none)
      ∧ ((¬ ∃ kvs m, json = some (.obj kvs) ∧ kvs.lookup "matches" = some m
            ∧ ((∃ x xs, m = .arr (x :: xs)) ∨ (∃ s, m = .str s ∧ s ≠ "")
                ∨ (∃ kvs2 len, m = .obj kvs2 ∧ kvs2.lookup "length" = some len
                    ∧ (len = .bool true ∨ (∃ n, len = .num n ∧ n ≠ 0)
                        ∨ (∃ s, len = .str s ∧ s ≠ "") ∨ (∃ xs, len = .arr xs)
                        ∨ (∃ kvs3, len = .obj kvs3))))) →
        (queryGoogleSafeBrowsing validUrl st url (.response status json)).1.status = "safe"
        ∧ (queryGoogleSafeBrowsing validUrl st url (.response status json)).1.matchList
            = some (.arr [])
        ∧ (queryGoogleSafeBrowsing validUrl st url (.response status json)).1.error = none))
    := by
  refine ⟨fun hbad => ?_, fun hgood => ⟨fun kvs m hj hm hlen => ?_, fun hneg => ?_⟩⟩
  · have hok : httpOk status = false := by
      simp only [httpOk, Bool.and_eq_false_imp, decide_eq_true_eq, decide_eq_false_iff_not]
      omega
    simp [queryGoogleSafeBrowsing, hv, hok]
  · have hok : httpOk status = true := by
      simp only [httpOk, Bool.and_eq_true, decide_eq_true_eq]
      exact hgood
    have hmo : matchesOf json = some m := (matchesOf_eq_some_iff json m).mpr ⟨kvs, hj, hm, hlen⟩
    simp [queryGoogleSafeBrowsing, hv, hok, hmo]
  · have hok : httpOk status = true := by
      simp only [httpOk, Bool.and_eq_true, decide_eq_true_eq]
      exact hgood
    have hmo : matchesOf json = none := by
      cases h : matchesOf json with
      | none => rfl
      | some m =>
        obtain ⟨kvs, h1, h2, h3⟩ := (matchesOf_eq_some_iff json m).mp h
        exact absurd ⟨kvs, m, h1, h2, h3⟩ hneg
    simp [queryGoogleSafeBrowsing, hv, hok, hmo]

theorem C9_query_verdict_witness :
    (queryGoogleSafeBrowsing sampleValidUrl emptyWorker "https://evil.test/collect"
      (.response 503 none)).1.status = "unknown"
    ∧ (queryGoogleSafeBrowsing sampleValidUrl emptyWorker "https://evil.test/collect"
      (.response 200 (some (.obj [("matches", .arr [.str "m"])])))).1.status = "unsafe"
    ∧ (queryGoogleSafeBrowsing sampleValidUrl emptyWorker "https://evil.test/collect"
      (.response 200 (some (.obj [("matches", .null)])))).1.status = "safe"
    ∧ (queryGoogleSafeBrowsing sampleValidUrl emptyWorker "https://evil.test/collect"
      (.response 200 (some (.arr [.str "m"])))).1.status = "safe"
    ∧ (queryGoogleSafeBrowsing sampleValidUrl emptyWorker "https://evil.test/collect"
      (.response 200 none)).1.status = "safe" :=
  ⟨((C9_query_verdict sampleValidUrl emptyWorker "https://evil.test/collect" 503 none
      (by decide)).1 (by decide)).1,
   (((C9_query_verdict sampleValidUrl emptyWorker "https://evil.test/collect" 200
      (some (.obj [("matches", .arr [.str "m"])])) (by decide)).2 (by decide)).1
      [("matches", .arr [.str "m"])] (.arr [.str "m"]) rfl rfl
      (Or.inl ⟨.str "m", [], rfl⟩)).1,
   (((C9_query_verdict sampleValidUrl emptyWorker "https://evil.test/collect" 200
      (some (.obj [("matches", .null)])) (by decide)).2 (by decide)).2
      (by
        rintro ⟨kvs, m, h1, h2, h3⟩
        cases h1
        cases h2
        rcases h3 with ⟨_, _, h⟩ | ⟨_, h, _⟩ | ⟨_, _, h, _⟩ <;> cases h)).1,
   (((C9_query_verdict sampleValidUrl emptyWorker "https://evil.test/collect" 200
      (some (.arr [.str "m"])) (by decide)).2 (by decide)).2
      (by
        rintro ⟨kvs, m, h1, _⟩
        cases h1)).1,
   (((C9_query_verdict sampleValidUrl emptyWorker "https://evil.test/collect" 200 none
      (by decide)).2 (by decide)).2
      (by
        rintro ⟨kvs, m, h1, _⟩
        cases h1)).1⟩

/-! ## The bypass flag at the capture points and in the modal -/

/-- The wrapped `submit` of a form whose bypass flag is set calls the original. -/
theorem wrappedSubmit_of_bypass (st : State) (i : Nat) (f : Form)
    (hf : st.forms[i]? = some f) (hb : f.disableInterception = true) :
    wrappedSubmit st i = st.emit (.origSubmit i) := by
  simp [wrappedSubmit, hf, hb]

/-- The first click listener lets a click on a form whose bypass flag is set through. -/
theorem clickListener1_of_bypass (st : State) (ev : ClickEvent) (b : DomNode) (i : Nat)
    (f : Form) (hbtn : findButton ev.path = some b) (hform : b.form = some i)
    (hf : st.forms[i]? = some f) (hb : f.disableInterception = true) :
    (clickListener1 st ev).2 = ev ∧ (clickListener1 st ev).1.modalOpen = st.modalOpen := by
  unfold clickListener1
  split_ifs <;> simp [hbtn, hform, hf, hb]

/-- The second click listener does not read the bypass flag: a primary click on a
button of a form whose snapshot has a reason is blocked and opens the modal. -/
theorem clickListener2_blocks (st : State) (ev : ClickEvent) (b : DomNode) (i : Nat)
    (f : Form) (hp : ev.defaultPrevented = false) (h0 : ev.button = 0)
    (hm : st.modalOpen = false) (hbtn : findButton ev.path = some b)
    (hform : b.form = some i) (hf : st.forms[i]? = some f)
    (hpw : (analyzeForm st.page f.dom).hasPassword = true)
    (hr : evaluateFormRisk (analyzeForm st.page f.dom) sbUnknown ≠ []) :
    (clickListener2 st ev).2 = ev.block ∧ (clickListener2 st ev).1.modalOpen = true := by
  have hlen : 0 < (evaluateFormRisk (analyzeForm st.page f.dom) sbUnknown).length :=
    List.length_pos.mpr hr
  simp [clickListener2, hp, h0, hm, hbtn, hform, hf, interceptClick, hpw, hlen,
    showWarningModal]

/-- The `submit` listener does not read the bypass flag either. -/
theorem submitListener_blocks (st : State) (i : Nat) (f : Form) (sb : SbVerdict)
    (hm : st.modalOpen = false) (hf : st.forms[i]? = some f)
    (hr : evaluateFormRisk (analyzeForm st.page f.dom) sb ≠ []) :
    (submitListener st i sb).2 = true ∧ (submitListener st i sb).1.modalOpen = true := by
  have hlen : 0 < (evaluateFormRisk (analyzeForm st.page f.dom) sb).length :=
    List.length_pos.mpr hr
  simp [submitListener, hf, hlen, showWarningModal, hm]

/-- "Proceed anyway" with no clicked control known, on a modal opened for a form:
the modal closes, the flag of the form is set and the original `submit` of the
form is called once. -/
theorem proceedClick_without_control (st : State) (m : Modal) (i : Nat) (f : Form)
    (ho : st.overlay = some m) (ht : m.target = .form i) (hf : st.forms[i]? = some f)
    (hl : st.lastClickedButton = none) :
    (proceedClick st).modalOpen = false
    ∧ (proceedClick st).overlay = none
    ∧ (proceedClick st).bypass i = true
    ∧ (proceedClick st).log = st.log ++ [.origSubmit i] := by
  have hlt : i < st.forms.length := by
    rcases List.getElem?_eq_some.mp hf with ⟨h, _⟩
    exact h
  have hmod : (st.forms.modify (fun f => { f with disableInterception := true }) i)[i]?
      = some { f with disableInterception := true } := by
    rw [List.getElem?_modify_eq, hf]
    rfl
  unfold proceedClick
  simp only [ho, ht, setBypass, State.setFormBypass, hl, callSubmitOn, callFormSubmit, hmod]
  split_ifs
  · simp [wrappedSubmit, hmod, State.emit, State.bypass]
  · simp [hmod, State.emit, State.bypass]

/-- Cancel and Report leave every form as it is. -/
theorem cancel_report_keep_forms (st : State) :
    (applyDecision st .cancel).forms = st.forms ∧ (applyDecision st .report).forms = st.forms := by
  constructor
  · simp only [applyDecision, cancelClick]
    split <;> rfl
  · simp only [applyDecision, reportClick]
    split
    · rfl
    · split_ifs <;> rfl

/-- "Proceed anyway" on a modal opened for a network call sets the bypass flag of
the first form whenever the document has a form. -/
theorem proceed_on_ajax_modal_sets_first_form (st : State) (f : Form) (fs : List Form)
    (details : ModalInfo) (hforms : st.forms = f :: fs) (hm : st.modalOpen = false) :
    (proceedClick (triggerAjaxWarning st details)).bypass 0 = true := by
  unfold proceedClick triggerAjaxWarning showWarningModal firstFormOrBody
  simp only [hm, Bool.false_eq_true, if_false, hforms, setBypass, State.setFormBypass]
  have hkeep : ∀ (s : State) (ev : ClickEvent),
      (dispatchClickEvent s ev).1.forms = s.forms := by
    intro s ev
    have h1 : ∀ (s : State) (ev : ClickEvent) (i : Nat) (g : Form),
        (interceptClick s ev i g).1.forms = s.forms := by
      intro s ev i g
      unfold interceptClick showWarningModal
      simp only
      split_ifs <;> rfl
    have hl1 : ∀ (s : State) (ev : ClickEvent), (clickListener1 s ev).1.forms = s.forms := by
      intro s ev
      unfold clickListener1
      split_ifs <;> try rfl
      split <;> try rfl
      split <;> try rfl
      split <;> try rfl
      split_ifs
      · rfl
      · exact h1 _ _ _ _
    have hl2 : ∀ (s : State) (ev : ClickEvent), (clickListener2 s ev).1.forms = s.forms := by
      intro s ev
      unfold clickListener2
      split_ifs <;> try rfl
      split <;> try rfl
      split <;> try rfl
      split <;> try rfl
      exact h1 _ _ _ _
    unfold dispatchClickEvent
    simp only
    split_ifs
    · exact hl1 s ev
    · rw [hl2, hl1]
  have hsub : ∀ (s : State), (callFormSubmit s 0).forms = s.forms := by
    intro s
    unfold callFormSubmit wrappedSubmit showWarningModal State.emit
    split
    · rfl
    · split_ifs <;> simp only [*] <;> split_ifs <;> rfl
  split
  · simp only [State.emit, State.bypass, hkeep, hforms]
    simp
  · simp only [callSubmitOn, State.bypass, hsub, hforms]
    simp

/-! ## The content script on the scenario page -/

/-- C5, the code at the failing input: on the scenario page a click opens the modal
and "Proceed anyway" sets the bypass flag of the form and submits it. After
that the first click listener and the wrapped `submit` honour the flag, but a
further click on the submit button is default-prevented by the second click
listener, which opens the modal again, and the `submit` listener opens it too. -/
theorem C5_bypass_flag_not_honoured_everywhere :
    clickModalState.modalOpen = true
    ∧ bypassedState.bypass 0 = true
    ∧ bypassedState.modalOpen = false
    ∧ bypassedState.log = [.origSubmit 0]
    ∧ (clickListener1 bypassedState primaryClick).1.modalOpen = false
    ∧ (clickListener1 bypassedState primaryClick).2.defaultPrevented = false
    ∧ (callFormSubmit bypassedState 0).modalOpen = false
    ∧ (callFormSubmit bypassedState 0).log = [.origSubmit 0, .origSubmit 0]
    ∧ (dispatchClickEvent bypassedState primaryClick).1.modalOpen = true
    ∧ (dispatchClickEvent bypassedState primaryClick).2.defaultPrevented = true
    ∧ (submitListener bypassedState 0 sbUnknown).1.modalOpen = true
    ∧ (submitListener bypassedState 0 sbUnknown).2 = true := by
  decide

/-- C6, the code at the failing input: with the clicked control known, "Proceed
anyway" sets the bypass flag and dispatches one synthetic click on the
control; the second click listener default-prevents that click and opens the
modal again, and the original `submit` is not called. -/
theorem C6_replayed_click_reopens_modal :
    clickKnownState.modalOpen = true
    ∧ clickKnownState.overlay.map (fun m => m.target) = some (.form 0)
    ∧ (proceedClick clickKnownState).bypass 0 = true
    ∧ (proceedClick clickKnownState).log = [.dispatchClick submitButton true]
    ∧ (proceedClick clickKnownState).modalOpen = true
    ∧ (proceedClick clickKnownState).overlay.map (fun m => m.target) = some (.form 0) := by
  decide

/-- C10, the code at the failing input: the modal opened for a suspended `fetch`
is given the first form of the document; "Proceed anyway" on it sets the
bypass flag of that form and submits the form. -/
theorem C10_proceed_on_ajax_modal_sets_form_bypass :
    bankState.bypass 0 = false
    ∧ ajaxModalState.modalOpen = true
    ∧ ajaxModalState.overlay.map (fun m => m.reasons) = some [ajaxReason]
    ∧ ajaxModalState.bypass 0 = false
    ∧ (applyDecision ajaxModalState .proceed).bypass 0 = true
    ∧ (applyDecision ajaxModalState .proceed).log = [.origSubmit 0] := by
  decide

/-! ## Actions arriving while the modal is open -/

/-- With the modal open `showWarningModal` changes nothing: no second overlay. -/
theorem showWarningModal_of_open (st : State) (t : ModalTarget) (rs : List String)
    (info : ModalInfo) (hm : st.modalOpen = true) : showWarningModal st t rs info = st := by
  simp [showWarningModal, hm]

/-- With the modal open both click listeners leave the event as it came, and the
modal as it is. -/
theorem dispatchClickEvent_of_open (st : State) (ev : ClickEvent) (hm : st.modalOpen = true) :
    (dispatchClickEvent st ev).2 = ev
    ∧ (dispatchClickEvent st ev).1.modalOpen = true
    ∧ (dispatchClickEvent st ev).1.overlay = st.overlay
    ∧ (dispatchClickEvent st ev).1.log = st.log := by
  have h1 : (clickListener1 st ev).2 = ev ∧ (clickListener1 st ev).1.modalOpen = true
      ∧ (clickListener1 st ev).1.overlay = st.overlay := by
    unfold clickListener1
    split_ifs <;> simp [hm]
  have h2 : ∀ s : State, s.modalOpen = true → clickListener2 s ev = (s, ev) := by
    intro s hs
    unfold clickListener2
    split_ifs <;> rfl
  refine ⟨?_, ?_, ?_, dispatchClickEvent_log st ev⟩
  · unfold dispatchClickEvent
    simp only
    split_ifs
    · exact h1.1
    · rw [h1.1, h2 _ h1.2.1]
  · unfold dispatchClickEvent
    simp only
    split_ifs
    · exact h1.2.1
    · rw [h1.1, h2 _ h1.2.1]
      exact h1.2.1
  · unfold dispatchClickEvent
    simp only
    split_ifs
    · exact h1.2.2
    · rw [h1.1, h2 _ h1.2.1]
      exact h1.2.2

/-- With the modal open the wrapped `submit` of a form whose flag is unset and whose
snapshot has a reason returns without calling the original `submit`. -/
theorem wrappedSubmit_of_open (st : State) (i : Nat) (f : Form) (hm : st.modalOpen = true)
    (hf : st.forms[i]? = some f) (hb : f.disableInterception = false)
    (hr : evaluateFormRisk (analyzeForm st.page f.dom) sbUnknown ≠ []) :
    wrappedSubmit st i = st := by
  have hlen : 0 < (evaluateFormRisk (analyzeForm st.page f.dom) sbUnknown).length :=
    List.length_pos.mpr hr
  simp [wrappedSubmit, hf, hb, hlen, showWarningModal, hm]

/-- With the modal open the `submit` listener of a form whose snapshot has a reason
still calls `preventDefault`. -/
theorem submitListener_of_open (st : State) (i : Nat) (f : Form) (sb : SbVerdict)
    (hm : st.modalOpen = true) (hf : st.forms[i]? = some f)
    (hr : evaluateFormRisk (analyzeForm st.page f.dom) sb ≠ []) :
    submitListener st i sb = (st, true) := by
  have hlen : 0 < (evaluateFormRisk (analyzeForm st.page f.dom) sb).length :=
    List.length_pos.mpr hr
  simp [submitListener, hf, hlen, showWarningModal, hm]

/-- With the modal open a credential-carrying POST through the wrapped `fetch` is
still suspended: the pending entry is appended, the original `fetch` is not
called, and the modal stays as it is. -/
theorem wrappedFetch_of_open (st : State) (hm : st.modalOpen = true) (input : FetchInput)
    (init : InitArg) (i : FetchInit) (text : String)
    (hpost : fetchMethod st.page.toUpperCase input init = "POST")
    (hi : init.fields = some i) (hb : bodyText i.body = some text) (hp : pattTest text = true) :
    wrappedFetch st input init =
      ({ st with pendingAjax := st.pendingAjax ++ [.fetch (inputUrl input) init] },
       .suspended) := by
  have ht := pattTest_truthy text hp
  simp [wrappedFetch, hpost, hi, extractCredentialsFromBody, hb, hp, ht, triggerAjaxWarning,
    showWarningModal, hm]

/-- With the modal open a credential-carrying POST through the wrapped `send` is
still suspended. -/
theorem wrappedSend_of_open (st : State) (hm : st.modalOpen = true) (xhr : Xhr)
    (body : Body) (text : String) (hpost : xhrMethod st.page.toUpperCase xhr = "POST")
    (hb : bodyText body = some text) (hp : pattTest text = true) :
    wrappedSend st xhr body =
      ({ st with pendingAjax := st.pendingAjax ++
                   [.xhr xhr.ffdMethod xhr.ffdUrl (xhr.ffdHeaders.getD []) body] },
       .suspended) := by
  have ht := pattTest_truthy text hp
  simp [wrappedSend, hpost, extractCredentialsFromBody, hb, hp, ht, triggerAjaxWarning,
    showWarningModal, hm]

/-- C11, the code at the failing input: on the scenario page with the modal open for
the login form, a further click on the submit button is not default-prevented
and no second modal is opened; but a call of the wrapped `submit` on the form
returns without calling the original `submit`, the `submit` listener calls
`preventDefault`, and a credential-carrying POST through the wrapped `fetch` or
the wrapped `send` is suspended with a pending entry and no call of the
original primitive. -/
theorem C11_open_modal_swallows_submit_and_network_calls :
    clickModalState.modalOpen = true
    ∧ clickModalState.bypass 0 = false
    ∧ (dispatchClickEvent clickModalState primaryClick).2.defaultPrevented = false
    ∧ (dispatchClickEvent clickModalState primaryClick).1.overlay = clickModalState.overlay
    ∧ (callFormSubmit clickModalState 0).log = []
    ∧ (callFormSubmit clickModalState 0).overlay = clickModalState.overlay
    ∧ (submitListener clickModalState 0 sbUnknown).2 = true
    ∧ (submitListener clickModalState 0 sbUnknown).1.overlay = clickModalState.overlay
    ∧ (wrappedFetch clickModalState (.str "/api/login")
        (.obj { method := some "POST", body := .str loginJson })).2 = .suspended
    ∧ (wrappedFetch clickModalState (.str "/api/login")
        (.obj { method := some "POST", body := .str loginJson })).1.log = []
    ∧ (wrappedFetch clickModalState (.str "/api/login")
        (.obj { method := some "POST", body := .str loginJson })).1.pendingAjax
        = [.fetch (some "/api/login") (.obj { method := some "POST", body := .str loginJson })]
    ∧ (wrappedFetch clickModalState (.str "/api/login")
        (.obj { method := some "POST", body := .str loginJson })).1.overlay
        = clickModalState.overlay
    ∧ (wrappedSend clickModalState { ffdMethod := some "POST", ffdUrl := some "/api/login" }
        (.str loginJson)).2 = .suspended
    ∧ (wrappedSend clickModalState { ffdMethod := some "POST", ffdUrl := some "/api/login" }
        (.str loginJson)).1.log = []
    ∧ (wrappedSend clickModalState { ffdMethod := some "POST", ffdUrl := some "/api/login" }
        (.str loginJson)).1.overlay = clickModalState.overlay := by
  decide

end FFD
